import Mathlib

/-
  Verification development for the SafeSight traffic-incident detection backend.

  The development shallowly embeds three modules:
  * backend/models/gemini_analyzer.py  — response parsing of the semantic analyzer
  * backend/crash_detector.py          — per-frame heuristic crash detection
  * backend/real_time_detector.py      — two-stage gate and per-source cooldown

  Python floats are modelled as rationals (the arithmetic involved is exact on
  the constants appearing in the code).  Wall-clock time is an explicit rational
  parameter.  External cv2 primitives (grayscale conversion, Gaussian blur,
  Canny, findContours, contourArea) are modelled mathematically on pixel grids;
  each model carries a comment describing the simplifications made.
-/

/-! ## JSON values and Python coercions (gemini_analyzer.py) -/

/-- A JSON value as produced by `json.loads`.  Nested objects are not needed by
the analyzer's schema and are omitted. -/
inductive JVal where
  | jnull : JVal
  | jbool : Bool → JVal
  | jnum : ℚ → JVal
  | jstr : String → JVal
  | jarr : List JVal → JVal

/-- Digits of a decimal string folded into a natural number. -/
def natOfDigits (cs : List Char) : ℕ :=
  cs.foldl (fun a c => a * 10 + (c.toNat - 48)) 0

/-- Models Python `float(s)` on strings: optional sign, decimal digits with an
optional fractional part.  Exotic forms (exponents, inf, nan, underscores) are
not modelled; they do not occur in the claims. -/
def pyFloatOfString (s : String) : Option ℚ :=
  let cs := s.trim.toList
  let signAndRest : ℚ × List Char :=
    match cs with
    | '-' :: r => (-1, r)
    | '+' :: r => (1, r)
    | r => (1, r)
  let sgn := signAndRest.1
  let rest := signAndRest.2
  let intPart := rest.takeWhile Char.isDigit
  let rem := rest.drop intPart.length
  match rem with
  | [] =>
      if intPart ≠ [] then some (sgn * (natOfDigits intPart : ℚ)) else none
  | '.' :: fr =>
      if fr.all Char.isDigit ∧ (intPart ≠ [] ∨ fr ≠ []) then
        some (sgn * ((natOfDigits intPart : ℚ) +
          (natOfDigits fr : ℚ) / (10 : ℚ) ^ fr.length))
      else none
  | _ => none

/-- Models Python `int(s)` on strings: optional sign followed by digits only. -/
def pyIntOfString (s : String) : Option ℤ :=
  let cs := s.trim.toList
  let signAndRest : ℤ × List Char :=
    match cs with
    | '-' :: r => (-1, r)
    | '+' :: r => (1, r)
    | r => (1, r)
  if signAndRest.2 ≠ [] ∧ signAndRest.2.all Char.isDigit then
    some (signAndRest.1 * (natOfDigits signAndRest.2 : ℤ))
  else none

/-- Models Python `float(v)` on a JSON value: numbers and booleans convert,
numeric strings parse, everything else raises (`none`). -/
def pyFloat : JVal → Option ℚ
  | .jnum q => some q
  | .jbool b => some (if b then 1 else 0)
  | .jstr s => pyFloatOfString s
  | .jnull => none
  | .jarr _ => none

/-- Models Python `int(v)` on a JSON value: floats truncate toward zero,
booleans convert, integer strings parse, everything else raises (`none`). -/
def pyInt : JVal → Option ℤ
  | .jnum q => some (Int.tdiv q.num (q.den : ℤ))
  | .jbool b => some (if b then 1 else 0)
  | .jstr s => pyIntOfString s
  | .jnull => none
  | .jarr _ => none

/-- A parsed JSON object: association list of fields, as a Python dict with
string keys (insertion order preserved). -/
abbrev JObj := List (String × JVal)

/-- Models `d[k]` lookup / `k in d`. -/
def jGet (o : JObj) (k : String) : Option JVal :=
  (o.find? (fun p => p.1 == k)).map Prod.snd

/-- Models `d[k] = v`: replace in place when present, append otherwise. -/
def jSet (o : JObj) (k : String) (v : JVal) : JObj :=
  if (o.find? (fun p => p.1 == k)).isSome then
    o.map (fun p => if p.1 == k then (k, v) else p)
  else o ++ [(k, v)]

/-- `GeminiAnalyzer._get_default_value` (gemini_analyzer.py lines 214-228). -/
def defaultValueFor : String → JVal
  | "has_incident" => .jbool false
  | "incident_type" => .jstr "none"
  | "severity" => .jstr "low"
  | "description" => .jstr "No description available"
  | "confidence" => .jnum 0
  | "location_details" => .jstr "Unknown location"
  | "recommended_actions" => .jarr []
  | "vehicles_detected" => .jnum 0
  | "pedestrians_detected" => .jnum 0
  | "emergency_vehicles_detected" => .jnum 0
  | _ => .jnull

/-- `GeminiAnalyzer._get_default_response` (gemini_analyzer.py lines 199-212). -/
def defaultResponse : JObj :=
  [("has_incident", .jbool false),
   ("incident_type", .jstr "none"),
   ("severity", .jstr "low"),
   ("description", .jstr "Analysis failed - unable to process image"),
   ("confidence", .jnum 0),
   ("location_details", .jstr "Unknown"),
   ("recommended_actions", .jarr []),
   ("vehicles_detected", .jnum 0),
   ("pedestrians_detected", .jnum 0),
   ("emergency_vehicles_detected", .jnum 0)]

/-- The required fields filled with defaults when absent
(gemini_analyzer.py line 176). -/
def requiredFieldNames : List String :=
  ["has_incident", "incident_type", "severity", "description", "confidence"]

/-- One step of the required-field fill loop (gemini_analyzer.py lines 177-179). -/
def fillField (o : JObj) (f : String) : JObj :=
  if (jGet o f).isSome then o else jSet o f (defaultValueFor f)

/-- The body of `GeminiAnalyzer._parse_response` after `json.loads` succeeded
(gemini_analyzer.py lines 175-189).  `none` models an exception raised by one
of the `float`/`int` coercions, which the caller catches. -/
def parseResponseInner (obj : JObj) : Option JObj :=
  let r1 := requiredFieldNames.foldl fillField obj
  match pyFloat ((jGet r1 "confidence").getD (.jnum 0)) with
  | none => none
  | some c =>
    let r2 := jSet r1 "confidence" (.jnum c)
    match pyInt ((jGet r2 "vehicles_detected").getD (.jnum 0)) with
    | none => none
    | some nv =>
      let r3 := jSet r2 "vehicles_detected" (.jnum nv)
      match pyInt ((jGet r3 "pedestrians_detected").getD (.jnum 0)) with
      | none => none
      | some np =>
        let r4 := jSet r3 "pedestrians_detected" (.jnum np)
        match pyInt ((jGet r4 "emergency_vehicles_detected").getD (.jnum 0)) with
        | none => none
        | some ne => some (jSet r4 "emergency_vehicles_detected" (.jnum ne))

/-- `GeminiAnalyzer._parse_response` (gemini_analyzer.py lines 152-197).
The input is the outcome of `json.loads` on the cleaned response text
(`none` = a `JSONDecodeError`); every exception path returns the default
response, so the function is total: parsing never raises to the caller. -/
def parseResponse (input : Option JObj) : JObj :=
  match input with
  | none => defaultResponse
  | some obj => (parseResponseInner obj).getD defaultResponse

/-! ## Pixel grids and models of the cv2 primitives -/

/-- A BGR video frame: `h` rows, `w` columns, `pix i j` the 8-bit blue/green/red
channels at row `i`, column `j`. -/
structure Img where
  h : ℕ
  w : ℕ
  pix : ℕ → ℕ → ℕ × ℕ × ℕ

/-- A single-channel (grayscale) image. -/
structure Gray where
  h : ℕ
  w : ℕ
  pix : ℕ → ℕ → ℕ

/-- Grayscale value of one BGR pixel.  Models cv2's
`0.299 R + 0.587 G + 0.114 B` with rounding (cv2 uses an equivalent fixed-point
form); exact whenever the three channels are equal. -/
def grayVal (p : ℕ × ℕ × ℕ) : ℕ :=
  (299 * p.2.2 + 587 * p.2.1 + 114 * p.1 + 500) / 1000

/-- Models `cv2.cvtColor(frame, cv2.COLOR_BGR2GRAY)`.  cv2 raises on a
zero-sized input, modelled as `none`. -/
def cvtColorBGR2GRAY (f : Img) : Option Gray :=
  if f.h = 0 ∨ f.w = 0 then none
  else some ⟨f.h, f.w, fun i j => grayVal (f.pix i j)⟩

/-- The total grayscale conversion used where no claim depends on the
zero-sized-input error path (real_time_detector.py). -/
def grayOf (f : Img) : Gray :=
  ⟨f.h, f.w, fun i j => grayVal (f.pix i j)⟩

/-- cv2's default BORDER_REFLECT_101 index mapping, clamped into range for
degenerate dimensions. -/
def reflect101 (n : ℕ) (i : ℤ) : ℕ :=
  let r : ℤ := if i < 0 then -i else if (n : ℤ) ≤ i then 2 * (n : ℤ) - 2 - i else i
  min r.toNat (n - 1)

/-- Pixel access with border reflection. -/
def pixAt (g : Gray) (i j : ℤ) : ℕ :=
  g.pix (reflect101 g.h i) (reflect101 g.w j)

/-- The separable 5-tap binomial kernel with its offsets. -/
def kernel1D : List (ℤ × ℕ) := [(-2, 1), (-1, 4), (0, 6), (1, 4), (2, 1)]

/-- Models `cv2.GaussianBlur(gray, (5, 5), 0)`: a normalized 5x5 binomial
convolution with rounding (cv2's sigma-0 kernel is close to binomial; on the
constant and step images used below the distinction is immaterial). -/
def gaussianBlur5 (g : Gray) : Gray :=
  ⟨g.h, g.w, fun i j =>
    (kernel1D.foldl
      (fun acc p => acc + p.2 *
        (kernel1D.foldl
          (fun acc2 q => acc2 + q.2 * pixAt g ((i : ℤ) + p.1) ((j : ℤ) + q.1)) 0))
      0 + 128) / 256⟩

/-- Lookup into a materialized row-major grid; out-of-range reads yield the
default. -/
def gridGetNat (rows : List (List ℕ)) (i j : ℕ) : ℕ :=
  (rows.getD i []).getD j 0

/-- The blurred image materialized row by row. -/
def blurGridOf (g : Gray) : List (List ℕ) :=
  (List.range g.h).map fun i => (List.range g.w).map fun j => (gaussianBlur5 g).pix i j

/-- Blurred value with border reflection, read from the materialized grid. -/
def blurredAt (g : Gray) (bg : List (List ℕ)) (i j : ℤ) : ℕ :=
  gridGetNat bg (reflect101 g.h i) (reflect101 g.w j)

/-- Sobel L1 gradient magnitude of the blurred image at a pixel.  Together with
the threshold below this models `cv2.Canny(blurred, 50, 150)`: Canny's 3x3
Sobel derivatives and its default L1 magnitude are kept; non-maximum
suppression and the hysteresis upper threshold are not modelled (they thin the
edge bands but do not change which uniform regions have no edges, nor the
connectivity and extent of the high-contrast rectangle outlines used below). -/
def gradMagAt (g : Gray) (bg : List (List ℕ)) (i j : ℕ) : ℕ :=
  let b := fun di dj => (blurredAt g bg ((i : ℤ) + di) ((j : ℤ) + dj) : ℤ)
  let gx := (b (-1) 1 + 2 * b 0 1 + b 1 1) - (b (-1) (-1) + 2 * b 0 (-1) + b 1 (-1))
  let gy := (b 1 (-1) + 2 * b 1 0 + b 1 1) - (b (-1) (-1) + 2 * b (-1) 0 + b (-1) 1)
  gx.natAbs + gy.natAbs

/-- The edge map computed from a given blurred grid. -/
def edgeGridFrom (g : Gray) (bg : List (List ℕ)) : List (List Bool) :=
  (List.range g.h).map fun i => (List.range g.w).map fun j =>
    decide (50 < gradMagAt g bg i j)

/-- The Canny edge map materialized as a Bool grid (edge iff the gradient
magnitude exceeds the lower threshold 50). -/
def edgeGridOf (g : Gray) : List (List Bool) :=
  edgeGridFrom g (blurGridOf g)

/-- All cells of an `h` by `w` grid in row-major order. -/
def allCells (h w : ℕ) : List (ℕ × ℕ) :=
  (List.range h).flatMap fun i => (List.range w).map fun j => (i, j)

/-- A maximal horizontal run of edge pixels: row index and inclusive column
interval.  Edge components are represented by their runs. -/
structure Run where
  row : ℕ
  lo : ℕ
  hi : ℕ
deriving DecidableEq

/-- The maximal runs of `true` cells in one row, scanning left to right
(`j` is the column of the head, the accumulator an open run). -/
def rowRunsAux : List Bool → ℕ → Option (ℕ × ℕ) → List (ℕ × ℕ)
  | [], _, none => []
  | [], _, some r => [r]
  | b :: rest, j, none =>
    if b then rowRunsAux rest (j + 1) (some (j, j))
    else rowRunsAux rest (j + 1) none
  | b :: rest, j, some se =>
    if b then rowRunsAux rest (j + 1) (some (se.1, j))
    else se :: rowRunsAux rest (j + 1) none

/-- The maximal runs of `true` cells in one row. -/
def rowRuns (row : List Bool) : List (ℕ × ℕ) :=
  rowRunsAux row 0 none

/-- All runs of an edge grid, row by row. -/
def allRuns (eg : List (List Bool)) : List Run :=
  eg.enum.flatMap fun ir => (rowRuns ir.2).map fun se => ⟨ir.1, se.1, se.2⟩

/-- 8-connectivity between runs on consecutive rows (cv2 contours are
8-connected): the column intervals touch or overlap diagonally. -/
def runsAdjacent (a b : Run) : Bool :=
  decide ((a.row + 1 = b.row ∨ b.row + 1 = a.row)
    ∧ a.lo ≤ b.hi + 1 ∧ b.lo ≤ a.hi + 1)

/-- Whether a run touches a component. -/
def adjacentToComp (r : Run) (c : List Run) : Bool :=
  c.any fun s => runsAdjacent r s

/-- Add one run: merge every component it touches. -/
def insertRun (comps : List (List Run)) (r : Run) : List (List Run) :=
  (r :: (comps.filter (adjacentToComp r)).flatten)
    :: comps.filter (fun c => !(adjacentToComp r c))

/-- Connected components of a run list (single-pass merging; merging every
touching component at each step makes the result the 8-connected components
for any insertion order). -/
def componentsOfRuns (rs : List Run) : List (List Run) :=
  rs.foldl insertRun []

/-- Models `cv2.findContours(edges, cv2.RETR_EXTERNAL, ...)`: the 8-connected
components of the edge map, each as its list of runs.  cv2 returns traced
outer boundaries; the filters applied downstream consume a component only
through its bounding box and row spans, which the runs determine. -/
def componentsOf (g : Gray) : List (List Run) :=
  componentsOfRuns (allRuns (edgeGridOf g))

/-- Minimum of a list of naturals (0 for the empty list; only applied to
nonempty lists below). -/
def listMin : List ℕ → ℕ
  | [] => 0
  | x :: xs => xs.foldl min x

/-- Maximum of a list of naturals. -/
def listMax : List ℕ → ℕ
  | [] => 0
  | x :: xs => xs.foldl max x

/-- The horizontal span of a component in row `r` (0 when the component does
not meet the row). -/
def spanOfRow (c : List Run) (r : ℕ) : ℕ :=
  match c.filter (fun s => s.row == r) with
  | [] => 0
  | rs => listMax (rs.map Run.hi) - listMin (rs.map Run.lo) + 1

/-- Models `cv2.contourArea`: the area enclosed by the traced contour, computed
here as the sum over occupied rows of the horizontal span.  For the closed
rectangular edge bands arising below this equals the enclosed area up to the
band width; constant offsets of a few pixels are immaterial to the
1000-50000 filter. -/
def spanArea (c : List Run) : ℕ :=
  ((c.map Run.row).dedup).foldl (fun a r => a + spanOfRow c r) 0

/-- Models `cv2.boundingRect`: `(x, y, w, h)` with `x` the minimum column. -/
def boundingRect (c : List Run) : ℕ × ℕ × ℕ × ℕ :=
  (listMin (c.map Run.lo), listMin (c.map Run.row),
   listMax (c.map Run.hi) - listMin (c.map Run.lo) + 1,
   listMax (c.map Run.row) - listMin (c.map Run.row) + 1)

/-! ## crash_detector.py -/

/-- `CrashDetector.crash_threshold` (crash_detector.py line 17). -/
def crashThreshold : ℚ := 7 / 10

/-- A candidate vehicle as built by `CrashDetector._detect_vehicles`
(crash_detector.py lines 93-107): bounding box, contour area and bounding-box
aspect ratio.  The raw contour itself is consumed only through these fields. -/
structure Vehicle where
  x : ℕ
  y : ℕ
  bw : ℕ
  bh : ℕ
  area : ℕ
  aspectRatio : ℚ
deriving DecidableEq

/-- `CrashDetector._detect_vehicles` (crash_detector.py lines 82-109): blur,
edge-detect, take external contours, keep those with area in (1000, 50000) and
aspect ratio in (1.2, 5.0). -/
def detectVehicles (g : Gray) : List Vehicle :=
  (componentsOf g).filterMap fun c =>
    let a := spanArea c
    if 1000 < a ∧ a < 50000 then
      let br := boundingRect c
      let ar : ℚ := (br.2.2.1 : ℚ) / (br.2.2.2 : ℚ)
      if 12 / 10 < ar ∧ ar < 5 then
        some ⟨br.1, br.2.1, br.2.2.1, br.2.2.2, a, ar⟩
      else none
    else none

/-- Motion metrics between two grayscale frames
(`CrashDetector._analyze_motion`, crash_detector.py lines 111-131). -/
structure MotionData where
  hasMotion : Bool
  motionRatio : ℚ
  anomalyScore : ℚ
deriving DecidableEq

/-- Count of pixels whose absolute intensity difference exceeds the binary
threshold 30 (`cv2.absdiff` + `cv2.threshold(diff, 30, 255, THRESH_BINARY)`,
then counting positive pixels).  cv2 requires both frames to share the current
frame's dimensions; the count ranges over those. -/
def absDiffAboveCount (a b : Gray) : ℕ :=
  (allCells a.h a.w).countP fun p =>
    decide (30 < max (a.pix p.1 p.2) (b.pix p.1 p.2)
      - min (a.pix p.1 p.2) (b.pix p.1 p.2))

/-- `CrashDetector._analyze_motion` (crash_detector.py lines 111-131). -/
def analyzeMotion (cur prev : Gray) : MotionData :=
  let total : ℚ := ((cur.h * cur.w : ℕ) : ℚ)
  let r : ℚ := ((absDiffAboveCount cur prev : ℕ) : ℚ) / total
  ⟨decide (1 / 100 < r), r, min (r * 10) 1⟩

/-- Whether one BGR pixel lands in the union of the two debris masks of
`CrashDetector._detect_debris_patterns` (crash_detector.py lines 205-227).
In HSV, the bright mask is `S ≤ 30 and V ≥ 200`, the dark mask `V ≤ 50`
(both with the full hue range, so the hue channel is irrelevant);
`V = max(B,G,R)` and `S = 255 (V - min(B,G,R)) / V` as cv2 computes them. -/
def isDebrisPix (p : ℕ × ℕ × ℕ) : Bool :=
  let v := max p.1 (max p.2.1 p.2.2)
  let s := if v = 0 then 0 else ((v - min p.1 (min p.2.1 p.2.2)) * 255) / v
  decide (s ≤ 30 ∧ 200 ≤ v) || decide (v ≤ 50)

/-- `CrashDetector._detect_debris_patterns` (crash_detector.py lines 205-227). -/
def detectDebrisPatterns (f : Img) : ℚ :=
  let cnt := (allCells f.h f.w).countP fun p => isDebrisPix (f.pix p.1 p.2)
  min ((((cnt : ℕ) : ℚ) / (((f.h * f.w : ℕ) : ℚ))) * 20) 1

/-- Bounding-box centre used for proximity (`x + w // 2`, `y + h // 2`). -/
def vehicleCenter (v : Vehicle) : ℕ × ℕ :=
  (v.x + v.bw / 2, v.y + v.bh / 2)

/-- Centre distances over all unordered pairs.  `np.sqrt` on floats is
modelled by `Nat.sqrt` (floor); the difference is below one pixel and shifts
the proximity risk by less than 1/200. -/
def pairDistances : List Vehicle → List ℕ
  | [] => []
  | v :: rest =>
    (rest.map fun u =>
      Nat.sqrt ((((vehicleCenter v).1 : ℤ) - ((vehicleCenter u).1 : ℤ)).natAbs ^ 2
        + (((vehicleCenter v).2 : ℤ) - ((vehicleCenter u).2 : ℤ)).natAbs ^ 2))
      ++ pairDistances rest

/-- `max(0, 1 - min_distance / 200)` (crash_detector.py line 185). -/
def proximityRisk (minDistance : ℚ) : ℚ :=
  max 0 (1 - minDistance / 200)

/-- `CrashDetector._check_vehicle_proximity` (crash_detector.py lines 165-186). -/
def checkVehicleProximity (vs : List Vehicle) : ℚ :=
  if vs.length < 2 then 0
  else proximityRisk ((listMin (pairDistances vs) : ℕ) : ℚ)

/-- `CrashDetector._check_orientation_anomalies`
(crash_detector.py lines 188-203). -/
def checkOrientationAnomalies (vs : List Vehicle) : ℚ :=
  min (vs.foldl (fun a v =>
    a + (if v.aspectRatio < 4 / 5 ∨ 6 < v.aspectRatio then 3 / 10 else 0)
      + (if v.area < 2000 ∨ 40000 < v.area then 2 / 10 else 0)) 0) 1

/-- The indicator confidence of `CrashDetector._detect_crash_indicators`
(crash_detector.py lines 133-163) as a function of the three component scores:
0 for fewer than two vehicles, otherwise the equal-weight average gated at
0.6 (left at 0 when the average does not exceed 0.6). -/
def indicatorConfidenceOf (numVehicles : ℕ)
    (collisionRisk orientationScore debrisScore : ℚ) : ℚ :=
  if numVehicles < 2 then 0
  else
    let cs := (collisionRisk + orientationScore + debrisScore) / 3
    if 6 / 10 < cs then cs else 0

/-- The indicators record of `CrashDetector._detect_crash_indicators`
(crash_detector.py lines 133-163).  The formatted numeric suffix of the
description string is omitted. -/
structure Indicators where
  crash_type : String
  description : String
  bounding_boxes : List (ℕ × ℕ × ℕ × ℕ)
  confidence : ℚ
deriving DecidableEq

/-- `CrashDetector._detect_crash_indicators` (crash_detector.py lines 133-163). -/
def detectCrashIndicators (f : Img) (vs : List Vehicle) : Indicators :=
  if vs.length < 2 then ⟨"none", "No crash indicators detected", [], 0⟩
  else
    let cs := (checkVehicleProximity vs + checkOrientationAnomalies vs
      + detectDebrisPatterns f) / 3
    if 6 / 10 < cs then
      ⟨"collision", "Vehicle collision detected",
        vs.map (fun v => (v.x, v.y, v.bw, v.bh)), cs⟩
    else ⟨"none", "No crash indicators detected", [], 0⟩

/-- `CrashDetector._calculate_crash_probability`
(crash_detector.py lines 229-246). -/
def calculateCrashProbability (numVehicles : ℕ)
    (indicatorConfidence anomalyScore : ℚ) : ℚ :=
  if numVehicles = 0 then 0
  else
    min (indicatorConfidence + anomalyScore * (3 / 10)
      + min ((numVehicles : ℚ) * (1 / 10)) (3 / 10)) 1

/-- `min(motion_ratio * 10, 1.0)` (crash_detector.py line 125). -/
def motionAnomaly (motionRatio : ℚ) : ℚ :=
  min (motionRatio * 10) 1

/-- The heuristic crash scorer at the level of extracted features: the
composition of `_check_vehicle_proximity`, `_detect_crash_indicators` and
`_calculate_crash_probability` with the minimum centre distance, orientation
score, debris score and motion ratio taken as inputs. -/
def heuristicCrashProbability (numVehicles : ℕ)
    (minDistance orientationScore debrisScore motionRatio : ℚ) : ℚ :=
  calculateCrashProbability numVehicles
    (indicatorConfidenceOf numVehicles
      (if numVehicles < 2 then 0 else proximityRisk minDistance)
      orientationScore debrisScore)
    (motionAnomaly motionRatio)

/-- The per-frame detection result of `CrashDetector.detect_crash_in_frame`
(crash_detector.py lines 39-48 and 248-259). -/
structure CDResult where
  has_crash : Bool
  confidence : ℚ
  crash_type : String
  objects_detected : ℕ
  motion_detected : Bool
  anomaly_score : ℚ
  bounding_boxes : List (ℕ × ℕ × ℕ × ℕ)
  description : String
deriving DecidableEq

/-- `CrashDetector._get_no_detection_result` (crash_detector.py lines 248-259),
which coincides with the initial result record of lines 39-48. -/
def cdNoDetectionResult : CDResult :=
  ⟨false, 0, "none", 0, false, 0, [], "No crash detected"⟩

/-- The stages of `CrashDetector.detect_crash_in_frame` after vehicle
detection (crash_detector.py lines 52-80), returning the result together with
the computed crash probability.  `none` models an uncaught cv2 error
(zero-sized previous frame reached on the motion path); note the early return
for zero vehicles happens before the previous frame is touched. -/
def detectCrashStage (f : Img) (prev : Option Img) (gray : Gray)
    (vehicles : List Vehicle) : Option (CDResult × ℚ) :=
  let r0 : CDResult := { cdNoDetectionResult with objects_detected := vehicles.length }
  if vehicles.length = 0 then some (r0, 0)
  else
    (match prev with
      | none => some (false, (0 : ℚ))
      | some p => (cvtColorBGR2GRAY p).map fun pg =>
          let md := analyzeMotion gray pg
          (md.hasMotion, md.anomalyScore)).bind fun mm =>
    let r1 := { r0 with motion_detected := mm.1, anomaly_score := mm.2 }
    let ind := detectCrashIndicators f vehicles
    let p := calculateCrashProbability vehicles.length ind.confidence mm.2
    if crashThreshold < p then
      some ({ r1 with
              has_crash := true
              confidence := p
              crash_type := ind.crash_type
              description := ind.description
              bounding_boxes := ind.bounding_boxes }, p)
    else some (r1, p)

/-- The body of `CrashDetector.detect_crash_in_frame` for a present frame
(crash_detector.py lines 36-80): grayscale conversion, vehicle detection, then
the remaining stages above. -/
def detectCrashCore (f : Img) (prev : Option Img) : Option (CDResult × ℚ) :=
  (cvtColorBGR2GRAY f).bind fun gray =>
    detectCrashStage f prev gray (detectVehicles gray)

/-- `CrashDetector.detect_crash_in_frame` (crash_detector.py lines 21-80).
A `None` frame returns the default result; `none` models a raised exception. -/
def detectCrashInFrame (frame prev : Option Img) : Option CDResult :=
  match frame with
  | none => some cdNoDetectionResult
  | some f => (detectCrashCore f prev).map Prod.fst

/-- The crash probability computed by `detect_crash_in_frame` on a present
frame (`none` models a raised exception). -/
def frameCrashProbability (f : Img) (prev : Option Img) : Option ℚ :=
  (detectCrashCore f prev).map Prod.snd

/-! ## Test images -/

/-- An all-black BGR frame. -/
def blackImg (h w : ℕ) : Img :=
  ⟨h, w, fun _ _ => (0, 0, 0)⟩

/-- An all-zero grayscale image. -/
def constGray (h w : ℕ) : Gray :=
  ⟨h, w, fun _ _ => 0⟩

/-- A static scene: a solid white 44 by 24 rectangle on a black 52 by 32
background.  Its Canny edges form one closed rectangular band whose span area
(about 1500) and aspect ratio (about 5/3) pass the vehicle filters. -/
def rectFrame : Img :=
  ⟨32, 52, fun i j =>
    if 4 ≤ i ∧ i < 28 ∧ 4 ≤ j ∧ j < 48 then (255, 255, 255) else (0, 0, 0)⟩

/-! ## Spec-side formulas for claim C3 -/

/-- The crash-probability formula exactly as the claim states it: the
equal-weight average of proximity risk (0 for fewer than two objects),
orientation score and debris score, plus 0.3 times the motion anomaly, plus
the object-count boost, clamped to the interval 0 to 1. -/
def claimedCrashProbability (numVehicles : ℕ)
    (minDistance orientationScore debrisScore motionRatio : ℚ) : ℚ :=
  let prox := if numVehicles < 2 then 0 else proximityRisk minDistance
  min (max ((prox + orientationScore + debrisScore) / 3
    + (3 / 10) * min (motionRatio * 10) 1
    + min ((1 / 10) * (numVehicles : ℚ)) (3 / 10)) 0) 1

/-- The amended formula: identical to the claim's except that the equal-weight
average only contributes when at least two objects are present and the average
exceeds 0.6; otherwise the base term is 0.  The clamp below at 0 is redundant
and the clamp above at 1 remains. -/
def amendedCrashProbability (numVehicles : ℕ)
    (minDistance orientationScore debrisScore motionRatio : ℚ) : ℚ :=
  let prox := if numVehicles < 2 then 0 else proximityRisk minDistance
  let base := (prox + orientationScore + debrisScore) / 3
  let gatedBase := if 2 ≤ numVehicles ∧ 6 / 10 < base then base else 0
  min (gatedBase + (3 / 10) * min (motionRatio * 10) 1
    + min ((1 / 10) * (numVehicles : ℚ)) (3 / 10)) 1

/-! ## real_time_detector.py -/

/-- The first-stage gate threshold on the computer-vision confidence
(real_time_detector.py line 63: `cv_result['confidence'] > 0.6`). -/
def cvGateThreshold : ℚ := 6 / 10

/-- The final acceptance threshold on the analyzer confidence
(real_time_detector.py line 66: `gemini_result['confidence'] > 0.4`). -/
def finalConfidenceThreshold : ℚ := 4 / 10

/-- The per-source cooldown in seconds (real_time_detector.py line 56). -/
def cooldownSeconds : ℚ := 10

/-- The frame stride: only every 30th frame is analyzed
(real_time_detector.py line 51). -/
def frameStride : ℕ := 30

/-- The parsed result of one Gemini call as consumed by
`RealTimeDetector.analyze_video_frame` (real_time_detector.py lines 66-73):
`has_crash`, `confidence`, and the optional fields read with `.get` defaults. -/
structure GeminiResult where
  has_crash : Bool
  confidence : ℚ
  crash_type : Option String
  description : Option String
  severity : Option String

/-- The detection result dict of `RealTimeDetector.analyze_video_frame`.
`frame_number` is absent (`none`) in the no-detection result. -/
structure RTResult where
  has_crash : Bool
  confidence : ℚ
  crash_type : String
  description : String
  severity : String
  method : String
  frame_number : Option ℕ
deriving DecidableEq

/-- `RealTimeDetector._get_no_detection_result`
(real_time_detector.py lines 169-178). -/
def rtNoDetectionResult : RTResult :=
  ⟨false, 0, "none", "Normal traffic", "none", "none", none⟩

/-- The mutable per-source state of `RealTimeDetector`
(real_time_detector.py lines 18-20): the per-source frame buffers and
last-emission timestamps, modelled as total maps (a source id absent from the
Python dicts corresponds to the empty buffer resp. `none`). -/
structure RTState where
  frameBuffers : String → List Img
  lastDetectionTime : String → Option ℚ

/-- The state of a fresh `RealTimeDetector`. -/
def rtInitialState : RTState :=
  ⟨fun _ => [], fun _ => none⟩

/-- The buffer append of lines 46-48: push the frame, keep the last 5. -/
def appendBuffer (buf : List Img) (f : Img) : List Img :=
  let b := buf ++ [f]
  if 5 < b.length then b.drop 1 else b

/-- The outcome of one `analyze_video_frame` call: the returned result, the
updated detector state, and whether the Gemini analyzer was invoked. -/
structure RTStep where
  result : RTResult
  state : RTState
  geminiInvoked : Bool

/-- The result record emitted on lines 68-76. -/
def rtEmit (g : GeminiResult) (frameNumber : ℕ) : RTResult :=
  ⟨true, g.confidence, g.crash_type.getD "collision",
    g.description.getD "Crash detected", g.severity.getD "high",
    "gemini_vlm", some frameNumber⟩

/-- The second stage of `analyze_video_frame` (real_time_detector.py
lines 59-78), reached when the frame survives the stride and cooldown checks:
escalate to Gemini only when the computer-vision confidence exceeds the gate
threshold and the model is configured (`gemini` is `some` of the call's parsed
outcome exactly when `self.gemini_model` is set; an errored call yields a
result with `has_crash = false`). -/
def rtGateStage (gemini : Option GeminiResult) (st : RTState) (videoId : String)
    (frameNumber : ℕ) (now : ℚ) (cvConfidence : ℚ) : RTStep :=
  if cvGateThreshold < cvConfidence then
    match gemini with
    | some g =>
      if g.has_crash ∧ finalConfidenceThreshold < g.confidence then
        ⟨rtEmit g frameNumber,
          ⟨st.frameBuffers,
            fun v => if v = videoId then some now else st.lastDetectionTime v⟩,
          true⟩
      else ⟨rtNoDetectionResult, st, true⟩
    | none => ⟨rtNoDetectionResult, st, false⟩
  else ⟨rtNoDetectionResult, st, false⟩

/-- `RealTimeDetector.analyze_video_frame` (real_time_detector.py lines 34-78)
with the computer-vision confidence of the current frame supplied as an
argument (the CV analysis is a pure function of the frame and buffer, computed
below by `analyzeWithComputerVision`; the Python code evaluates it after the
cooldown check, which is observationally equivalent).  `now` models
`time.time()`. -/
def analyzeVideoFrameWith (gemini : Option GeminiResult) (st : RTState)
    (videoId : String) (frame : Option Img) (frameNumber : ℕ) (now : ℚ)
    (cvConfidence : ℚ) : RTStep :=
  match frame with
  | none => ⟨rtNoDetectionResult, st, false⟩
  | some f =>
    let st1 : RTState :=
      ⟨fun v => if v = videoId then appendBuffer (st.frameBuffers videoId) f
                else st.frameBuffers v,
       st.lastDetectionTime⟩
    if frameNumber % frameStride ≠ 0 then ⟨rtNoDetectionResult, st1, false⟩
    else
      match st.lastDetectionTime videoId with
      | some t0 =>
        if now - t0 < cooldownSeconds then ⟨rtNoDetectionResult, st1, false⟩
        else rtGateStage gemini st1 videoId frameNumber now cvConfidence
      | none => rtGateStage gemini st1 videoId frameNumber now cvConfidence

/-- The CV result of `RealTimeDetector._analyze_with_computer_vision`
(real_time_detector.py lines 80-116). -/
structure CVResult where
  has_crash : Bool
  confidence : ℚ
  motion_detected : Bool
  objects_count : ℕ
deriving DecidableEq

/-- Mean absolute intensity difference (`np.mean(cv2.absdiff(...))`),
over the current frame's dimensions (0 for an empty frame). -/
def meanAbsDiff (a b : Gray) : ℚ :=
  (((allCells a.h a.w).foldl
    (fun s p => s + (max (a.pix p.1 p.2) (b.pix p.1 p.2)
      - min (a.pix p.1 p.2) (b.pix p.1 p.2))) 0 : ℕ) : ℚ)
  / ((a.h * a.w : ℕ) : ℚ)

/-- The significant-object count of lines 92-102: external contours with area
in (1000, 50000); unlike `CrashDetector._detect_vehicles` there is no
aspect-ratio filter. -/
def significantObjects (g : Gray) : ℕ :=
  (componentsOf g).countP fun c =>
    decide (1000 < spanArea c ∧ spanArea c < 50000)

/-- `RealTimeDetector._analyze_with_computer_vision`
(real_time_detector.py lines 80-116).  `buffer` is the post-append frame
buffer of the source, as in the Python code; motion is measured against
`buffer[-2]`.  The zero-sized-frame error path of cv2 is not modelled in this
module (no claim depends on it here; the crash_detector embedding models it). -/
def analyzeWithComputerVision (f : Img) (buffer : List Img) : CVResult :=
  let gray := grayOf f
  let motionDetected : Bool :=
    if 1 < buffer.length then
      decide (30 < meanAbsDiff gray (grayOf (buffer.getD (buffer.length - 2) f)))
    else false
  let objs := significantObjects gray
  let conf : ℚ :=
    if motionDetected ∧ 2 < objs then 7 / 10
    else if 4 < objs then 1 / 2
    else 0
  ⟨decide (cvGateThreshold < conf), conf, motionDetected, objs⟩

/-- `RealTimeDetector.analyze_video_frame` (real_time_detector.py
lines 34-78) with the CV stage computed from the pixels. -/
def analyzeVideoFrame (gemini : Option GeminiResult) (st : RTState)
    (videoId : String) (frame : Option Img) (frameNumber : ℕ) (now : ℚ) :
    RTStep :=
  match frame with
  | none => ⟨rtNoDetectionResult, st, false⟩
  | some f =>
    analyzeVideoFrameWith gemini st videoId (some f) frameNumber now
      (analyzeWithComputerVision f
        (appendBuffer (st.frameBuffers videoId) f)).confidence

/-- A Gemini outcome that confirms a crash with confidence 0.5. -/
def confirmedGemini : GeminiResult :=
  ⟨true, 1 / 2, none, none, none⟩

/-- The cooldown scenario of the spec: confirming signals for one source at
t = 0, 3, 7, 12 seconds (frame numbers 0, 30, 60, 90, CV confidence 0.7,
analyzer confirming with confidence 0.5), returning the emission times. -/
def cooldownScenarioEmissions : List ℚ :=
  (([((0 : ℚ), (0 : ℕ)), (3, 30), (7, 60), (12, 90)]).foldl
    (fun (acc : RTState × List ℚ) tn =>
      let out := analyzeVideoFrameWith (some confirmedGemini) acc.1 "cam"
        (some (blackImg 1 1)) tn.2 tn.1 (7 / 10)
      (out.state, acc.2 ++ if out.result.has_crash then [tn.1] else []))
    (rtInitialState, [])).2

/-! ## Materialized intermediate grids for the static rectangle scene -/

/-- The blurred grayscale of `rectFrame`, materialized. -/
def rectBlurGrid : List (List ℕ) :=
  [[0, 0, 0, 0, 0, 0, 0, 0, 0, 0, 0, 0, 0, 0, 0, 0, 0, 0, 0, 0, 0, 0, 0, 0, 0, 0, 0, 0, 0, 0, 0, 0, 0, 0, 0, 0, 0, 0, 0, 0, 0, 0, 0, 0, 0, 0, 0, 0, 0, 0, 0, 0],
 [0, 0, 0, 0, 0, 0, 0, 0, 0, 0, 0, 0, 0, 0, 0, 0, 0, 0, 0, 0, 0, 0, 0, 0, 0, 0, 0, 0, 0, 0, 0, 0, 0, 0, 0, 0, 0, 0, 0, 0, 0, 0, 0, 0, 0, 0, 0, 0, 0, 0, 0, 0],
 [0, 0, 1, 5, 11, 15, 16, 16, 16, 16, 16, 16, 16, 16, 16, 16, 16, 16, 16, 16, 16, 16, 16, 16, 16, 16, 16, 16, 16, 16, 16, 16, 16, 16, 16, 16, 16, 16, 16, 16, 16, 16, 16, 16, 16, 16, 15, 11, 5, 1, 0, 0],
 [0, 0, 5, 25, 55, 75, 80, 80, 80, 80, 80, 80, 80, 80, 80, 80, 80, 80, 80, 80, 80, 80, 80, 80, 80, 80, 80, 80, 80, 80, 80, 80, 80, 80, 80, 80, 80, 80, 80, 80, 80, 80, 80, 80, 80, 80, 75, 55, 25, 5, 0, 0],
 [0, 0, 11, 55, 121, 164, 175, 175, 175, 175, 175, 175, 175, 175, 175, 175, 175, 175, 175, 175, 175, 175, 175, 175, 175, 175, 175, 175, 175, 175, 175, 175, 175, 175, 175, 175, 175, 175, 175, 175, 175, 175, 175, 175, 175, 175, 164, 121, 55, 11, 0, 0],
 [0, 0, 15, 75, 164, 224, 239, 239, 239, 239, 239, 239, 239, 239, 239, 239, 239, 239, 239, 239, 239, 239, 239, 239, 239, 239, 239, 239, 239, 239, 239, 239, 239, 239, 239, 239, 239, 239, 239, 239, 239, 239, 239, 239, 239, 239, 224, 164, 75, 15, 0, 0],
 [0, 0, 16, 80, 175, 239, 255, 255, 255, 255, 255, 255, 255, 255, 255, 255, 255, 255, 255, 255, 255, 255, 255, 255, 255, 255, 255, 255, 255, 255, 255, 255, 255, 255, 255, 255, 255, 255, 255, 255, 255, 255, 255, 255, 255, 255, 239, 175, 80, 16, 0, 0],
 [0, 0, 16, 80, 175, 239, 255, 255, 255, 255, 255, 255, 255, 255, 255, 255, 255, 255, 255, 255, 255, 255, 255, 255, 255, 255, 255, 255, 255, 255, 255, 255, 255, 255, 255, 255, 255, 255, 255, 255, 255, 255, 255, 255, 255, 255, 239, 175, 80, 16, 0, 0],
 [0, 0, 16, 80, 175, 239, 255, 255, 255, 255, 255, 255, 255, 255, 255, 255, 255, 255, 255, 255, 255, 255, 255, 255, 255, 255, 255, 255, 255, 255, 255, 255, 255, 255, 255, 255, 255, 255, 255, 255, 255, 255, 255, 255, 255, 255, 239, 175, 80, 16, 0, 0],
 [0, 0, 16, 80, 175, 239, 255, 255, 255, 255, 255, 255, 255, 255, 255, 255, 255, 255, 255, 255, 255, 255, 255, 255, 255, 255, 255, 255, 255, 255, 255, 255, 255, 255, 255, 255, 255, 255, 255, 255, 255, 255, 255, 255, 255, 255, 239, 175, 80, 16, 0, 0],
 [0, 0, 16, 80, 175, 239, 255, 255, 255, 255, 255, 255, 255, 255, 255, 255, 255, 255, 255, 255, 255, 255, 255, 255, 255, 255, 255, 255, 255, 255, 255, 255, 255, 255, 255, 255, 255, 255, 255, 255, 255, 255, 255, 255, 255, 255, 239, 175, 80, 16, 0, 0],
 [0, 0, 16, 80, 175, 239, 255, 255, 255, 255, 255, 255, 255, 255, 255, 255, 255, 255, 255, 255, 255, 255, 255, 255, 255, 255, 255, 255, 255, 255, 255, 255, 255, 255, 255, 255, 255, 255, 255, 255, 255, 255, 255, 255, 255, 255, 239, 175, 80, 16, 0, 0],
 [0, 0, 16, 80, 175, 239, 255, 255, 255, 255, 255, 255, 255, 255, 255, 255, 255, 255, 255, 255, 255, 255, 255, 255, 255, 255, 255, 255, 255, 255, 255, 255, 255, 255, 255, 255, 255, 255, 255, 255, 255, 255, 255, 255, 255, 255, 239, 175, 80, 16, 0, 0],
 [0, 0, 16, 80, 175, 239, 255, 255, 255, 255, 255, 255, 255, 255, 255, 255, 255, 255, 255, 255, 255, 255, 255, 255, 255, 255, 255, 255, 255, 255, 255, 255, 255, 255, 255, 255, 255, 255, 255, 255, 255, 255, 255, 255, 255, 255, 239, 175, 80, 16, 0, 0],
 [0, 0, 16, 80, 175, 239, 255, 255, 255, 255, 255, 255, 255, 255, 255, 255, 255, 255, 255, 255, 255, 255, 255, 255, 255, 255, 255, 255, 255, 255, 255, 255, 255, 255, 255, 255, 255, 255, 255, 255, 255, 255, 255, 255, 255, 255, 239, 175, 80, 16, 0, 0],
 [0, 0, 16, 80, 175, 239, 255, 255, 255, 255, 255, 255, 255, 255, 255, 255, 255, 255, 255, 255, 255, 255, 255, 255, 255, 255, 255, 255, 255, 255, 255, 255, 255, 255, 255, 255, 255, 255, 255, 255, 255, 255, 255, 255, 255, 255, 239, 175, 80, 16, 0, 0],
 [0, 0, 16, 80, 175, 239, 255, 255, 255, 255, 255, 255, 255, 255, 255, 255, 255, 255, 255, 255, 255, 255, 255, 255, 255, 255, 255, 255, 255, 255, 255, 255, 255, 255, 255, 255, 255, 255, 255, 255, 255, 255, 255, 255, 255, 255, 239, 175, 80, 16, 0, 0],
 [0, 0, 16, 80, 175, 239, 255, 255, 255, 255, 255, 255, 255, 255, 255, 255, 255, 255, 255, 255, 255, 255, 255, 255, 255, 255, 255, 255, 255, 255, 255, 255, 255, 255, 255, 255, 255, 255, 255, 255, 255, 255, 255, 255, 255, 255, 239, 175, 80, 16, 0, 0],
 [0, 0, 16, 80, 175, 239, 255, 255, 255, 255, 255, 255, 255, 255, 255, 255, 255, 255, 255, 255, 255, 255, 255, 255, 255, 255, 255, 255, 255, 255, 255, 255, 255, 255, 255, 255, 255, 255, 255, 255, 255, 255, 255, 255, 255, 255, 239, 175, 80, 16, 0, 0],
 [0, 0, 16, 80, 175, 239, 255, 255, 255, 255, 255, 255, 255, 255, 255, 255, 255, 255, 255, 255, 255, 255, 255, 255, 255, 255, 255, 255, 255, 255, 255, 255, 255, 255, 255, 255, 255, 255, 255, 255, 255, 255, 255, 255, 255, 255, 239, 175, 80, 16, 0, 0],
 [0, 0, 16, 80, 175, 239, 255, 255, 255, 255, 255, 255, 255, 255, 255, 255, 255, 255, 255, 255, 255, 255, 255, 255, 255, 255, 255, 255, 255, 255, 255, 255, 255, 255, 255, 255, 255, 255, 255, 255, 255, 255, 255, 255, 255, 255, 239, 175, 80, 16, 0, 0],
 [0, 0, 16, 80, 175, 239, 255, 255, 255, 255, 255, 255, 255, 255, 255, 255, 255, 255, 255, 255, 255, 255, 255, 255, 255, 255, 255, 255, 255, 255, 255, 255, 255, 255, 255, 255, 255, 255, 255, 255, 255, 255, 255, 255, 255, 255, 239, 175, 80, 16, 0, 0],
 [0, 0, 16, 80, 175, 239, 255, 255, 255, 255, 255, 255, 255, 255, 255, 255, 255, 255, 255, 255, 255, 255, 255, 255, 255, 255, 255, 255, 255, 255, 255, 255, 255, 255, 255, 255, 255, 255, 255, 255, 255, 255, 255, 255, 255, 255, 239, 175, 80, 16, 0, 0],
 [0, 0, 16, 80, 175, 239, 255, 255, 255, 255, 255, 255, 255, 255, 255, 255, 255, 255, 255, 255, 255, 255, 255, 255, 255, 255, 255, 255, 255, 255, 255, 255, 255, 255, 255, 255, 255, 255, 255, 255, 255, 255, 255, 255, 255, 255, 239, 175, 80, 16, 0, 0],
 [0, 0, 16, 80, 175, 239, 255, 255, 255, 255, 255, 255, 255, 255, 255, 255, 255, 255, 255, 255, 255, 255, 255, 255, 255, 255, 255, 255, 255, 255, 255, 255, 255, 255, 255, 255, 255, 255, 255, 255, 255, 255, 255, 255, 255, 255, 239, 175, 80, 16, 0, 0],
 [0, 0, 16, 80, 175, 239, 255, 255, 255, 255, 255, 255, 255, 255, 255, 255, 255, 255, 255, 255, 255, 255, 255, 255, 255, 255, 255, 255, 255, 255, 255, 255, 255, 255, 255, 255, 255, 255, 255, 255, 255, 255, 255, 255, 255, 255, 239, 175, 80, 16, 0, 0],
 [0, 0, 15, 75, 164, 224, 239, 239, 239, 239, 239, 239, 239, 239, 239, 239, 239, 239, 239, 239, 239, 239, 239, 239, 239, 239, 239, 239, 239, 239, 239, 239, 239, 239, 239, 239, 239, 239, 239, 239, 239, 239, 239, 239, 239, 239, 224, 164, 75, 15, 0, 0],
 [0, 0, 11, 55, 121, 164, 175, 175, 175, 175, 175, 175, 175, 175, 175, 175, 175, 175, 175, 175, 175, 175, 175, 175, 175, 175, 175, 175, 175, 175, 175, 175, 175, 175, 175, 175, 175, 175, 175, 175, 175, 175, 175, 175, 175, 175, 164, 121, 55, 11, 0, 0],
 [0, 0, 5, 25, 55, 75, 80, 80, 80, 80, 80, 80, 80, 80, 80, 80, 80, 80, 80, 80, 80, 80, 80, 80, 80, 80, 80, 80, 80, 80, 80, 80, 80, 80, 80, 80, 80, 80, 80, 80, 80, 80, 80, 80, 80, 80, 75, 55, 25, 5, 0, 0],
 [0, 0, 1, 5, 11, 15, 16, 16, 16, 16, 16, 16, 16, 16, 16, 16, 16, 16, 16, 16, 16, 16, 16, 16, 16, 16, 16, 16, 16, 16, 16, 16, 16, 16, 16, 16, 16, 16, 16, 16, 16, 16, 16, 16, 16, 16, 15, 11, 5, 1, 0, 0],
 [0, 0, 0, 0, 0, 0, 0, 0, 0, 0, 0, 0, 0, 0, 0, 0, 0, 0, 0, 0, 0, 0, 0, 0, 0, 0, 0, 0, 0, 0, 0, 0, 0, 0, 0, 0, 0, 0, 0, 0, 0, 0, 0, 0, 0, 0, 0, 0, 0, 0, 0, 0],
 [0, 0, 0, 0, 0, 0, 0, 0, 0, 0, 0, 0, 0, 0, 0, 0, 0, 0, 0, 0, 0, 0, 0, 0, 0, 0, 0, 0, 0, 0, 0, 0, 0, 0, 0, 0, 0, 0, 0, 0, 0, 0, 0, 0, 0, 0, 0, 0, 0, 0, 0, 0]]

/-- The edge map of `rectFrame`, materialized: one closed rectangular band. -/
def rectEdgeGrid : List (List Bool) :=
  [[false, false, false, false, false, false, false, false, false, false, false, false, false, false, false, false, false, false, false, false, false, false, false, false, false, false, false, false, false, false, false, false, false, false, false, false, false, false, false, false, false, false, false, false, false, false, false, false, false, false, false, false],
 [false, false, false, false, true, true, true, true, true, true, true, true, true, true, true, true, true, true, true, true, true, true, true, true, true, true, true, true, true, true, true, true, true, true, true, true, true, true, true, true, true, true, true, true, true, true, true, true, false, false, false, false],
 [false, false, true, true, true, true, true, true, true, true, true, true, true, true, true, true, true, true, true, true, true, true, true, true, true, true, true, true, true, true, true, true, true, true, true, true, true, true, true, true, true, true, true, true, true, true, true, true, true, true, false, false],
 [false, false, true, true, true, true, true, true, true, true, true, true, true, true, true, true, true, true, true, true, true, true, true, true, true, true, true, true, true, true, true, true, true, true, true, true, true, true, true, true, true, true, true, true, true, true, true, true, true, true, false, false],
 [false, true, true, true, true, true, true, true, true, true, true, true, true, true, true, true, true, true, true, true, true, true, true, true, true, true, true, true, true, true, true, true, true, true, true, true, true, true, true, true, true, true, true, true, true, true, true, true, true, true, true, false],
 [false, true, true, true, true, true, true, true, true, true, true, true, true, true, true, true, true, true, true, true, true, true, true, true, true, true, true, true, true, true, true, true, true, true, true, true, true, true, true, true, true, true, true, true, true, true, true, true, true, true, true, false],
 [false, true, true, true, true, true, true, true, true, true, true, true, true, true, true, true, true, true, true, true, true, true, true, true, true, true, true, true, true, true, true, true, true, true, true, true, true, true, true, true, true, true, true, true, true, true, true, true, true, true, true, false],
 [false, true, true, true, true, true, true, false, false, false, false, false, false, false, false, false, false, false, false, false, false, false, false, false, false, false, false, false, false, false, false, false, false, false, false, false, false, false, false, false, false, false, false, false, false, true, true, true, true, true, true, false],
 [false, true, true, true, true, true, true, false, false, false, false, false, false, false, false, false, false, false, false, false, false, false, false, false, false, false, false, false, false, false, false, false, false, false, false, false, false, false, false, false, false, false, false, false, false, true, true, true, true, true, true, false],
 [false, true, true, true, true, true, true, false, false, false, false, false, false, false, false, false, false, false, false, false, false, false, false, false, false, false, false, false, false, false, false, false, false, false, false, false, false, false, false, false, false, false, false, false, false, true, true, true, true, true, true, false],
 [false, true, true, true, true, true, true, false, false, false, false, false, false, false, false, false, false, false, false, false, false, false, false, false, false, false, false, false, false, false, false, false, false, false, false, false, false, false, false, false, false, false, false, false, false, true, true, true, true, true, true, false],
 [false, true, true, true, true, true, true, false, false, false, false, false, false, false, false, false, false, false, false, false, false, false, false, false, false, false, false, false, false, false, false, false, false, false, false, false, false, false, false, false, false, false, false, false, false, true, true, true, true, true, true, false],
 [false, true, true, true, true, true, true, false, false, false, false, false, false, false, false, false, false, false, false, false, false, false, false, false, false, false, false, false, false, false, false, false, false, false, false, false, false, false, false, false, false, false, false, false, false, true, true, true, true, true, true, false],
 [false, true, true, true, true, true, true, false, false, false, false, false, false, false, false, false, false, false, false, false, false, false, false, false, false, false, false, false, false, false, false, false, false, false, false, false, false, false, false, false, false, false, false, false, false, true, true, true, true, true, true, false],
 [false, true, true, true, true, true, true, false, false, false, false, false, false, false, false, false, false, false, false, false, false, false, false, false, false, false, false, false, false, false, false, false, false, false, false, false, false, false, false, false, false, false, false, false, false, true, true, true, true, true, true, false],
 [false, true, true, true, true, true, true, false, false, false, false, false, false, false, false, false, false, false, false, false, false, false, false, false, false, false, false, false, false, false, false, false, false, false, false, false, false, false, false, false, false, false, false, false, false, true, true, true, true, true, true, false],
 [false, true, true, true, true, true, true, false, false, false, false, false, false, false, false, false, false, false, false, false, false, false, false, false, false, false, false, false, false, false, false, false, false, false, false, false, false, false, false, false, false, false, false, false, false, true, true, true, true, true, true, false],
 [false, true, true, true, true, true, true, false, false, false, false, false, false, false, false, false, false, false, false, false, false, false, false, false, false, false, false, false, false, false, false, false, false, false, false, false, false, false, false, false, false, false, false, false, false, true, true, true, true, true, true, false],
 [false, true, true, true, true, true, true, false, false, false, false, false, false, false, false, false, false, false, false, false, false, false, false, false, false, false, false, false, false, false, false, false, false, false, false, false, false, false, false, false, false, false, false, false, false, true, true, true, true, true, true, false],
 [false, true, true, true, true, true, true, false, false, false, false, false, false, false, false, false, false, false, false, false, false, false, false, false, false, false, false, false, false, false, false, false, false, false, false, false, false, false, false, false, false, false, false, false, false, true, true, true, true, true, true, false],
 [false, true, true, true, true, true, true, false, false, false, false, false, false, false, false, false, false, false, false, false, false, false, false, false, false, false, false, false, false, false, false, false, false, false, false, false, false, false, false, false, false, false, false, false, false, true, true, true, true, true, true, false],
 [false, true, true, true, true, true, true, false, false, false, false, false, false, false, false, false, false, false, false, false, false, false, false, false, false, false, false, false, false, false, false, false, false, false, false, false, false, false, false, false, false, false, false, false, false, true, true, true, true, true, true, false],
 [false, true, true, true, true, true, true, false, false, false, false, false, false, false, false, false, false, false, false, false, false, false, false, false, false, false, false, false, false, false, false, false, false, false, false, false, false, false, false, false, false, false, false, false, false, true, true, true, true, true, true, false],
 [false, true, true, true, true, true, true, false, false, false, false, false, false, false, false, false, false, false, false, false, false, false, false, false, false, false, false, false, false, false, false, false, false, false, false, false, false, false, false, false, false, false, false, false, false, true, true, true, true, true, true, false],
 [false, true, true, true, true, true, true, false, false, false, false, false, false, false, false, false, false, false, false, false, false, false, false, false, false, false, false, false, false, false, false, false, false, false, false, false, false, false, false, false, false, false, false, false, false, true, true, true, true, true, true, false],
 [false, true, true, true, true, true, true, true, true, true, true, true, true, true, true, true, true, true, true, true, true, true, true, true, true, true, true, true, true, true, true, true, true, true, true, true, true, true, true, true, true, true, true, true, true, true, true, true, true, true, true, false],
 [false, true, true, true, true, true, true, true, true, true, true, true, true, true, true, true, true, true, true, true, true, true, true, true, true, true, true, true, true, true, true, true, true, true, true, true, true, true, true, true, true, true, true, true, true, true, true, true, true, true, true, false],
 [false, true, true, true, true, true, true, true, true, true, true, true, true, true, true, true, true, true, true, true, true, true, true, true, true, true, true, true, true, true, true, true, true, true, true, true, true, true, true, true, true, true, true, true, true, true, true, true, true, true, true, false],
 [false, false, true, true, true, true, true, true, true, true, true, true, true, true, true, true, true, true, true, true, true, true, true, true, true, true, true, true, true, true, true, true, true, true, true, true, true, true, true, true, true, true, true, true, true, true, true, true, true, true, false, false],
 [false, false, true, true, true, true, true, true, true, true, true, true, true, true, true, true, true, true, true, true, true, true, true, true, true, true, true, true, true, true, true, true, true, true, true, true, true, true, true, true, true, true, true, true, true, true, true, true, true, true, false, false],
 [false, false, false, false, true, true, true, true, true, true, true, true, true, true, true, true, true, true, true, true, true, true, true, true, true, true, true, true, true, true, true, true, true, true, true, true, true, true, true, true, true, true, true, true, true, true, true, true, false, false, false, false],
 [false, false, false, false, false, false, false, false, false, false, false, false, false, false, false, false, false, false, false, false, false, false, false, false, false, false, false, false, false, false, false, false, false, false, false, false, false, false, false, false, false, false, false, false, false, false, false, false, false, false, false, false]]

/-- The single vehicle detected in `rectFrame`: the rectangle's edge band. -/
def rectVehicle : Vehicle :=
  ⟨1, 1, 50, 30, 1480, 5 / 3⟩

set_option maxRecDepth 400000
set_option maxHeartbeats 8000000

/-! ## Supporting lemmas -/

theorem rectBlurGrid_eq : blurGridOf (grayOf rectFrame) = rectBlurGrid := by
  with_unfolding_all rfl

theorem rectEdgeGrid_eq : edgeGridOf (grayOf rectFrame) = rectEdgeGrid := by
  unfold edgeGridOf
  rw [rectBlurGrid_eq]
  with_unfolding_all rfl

theorem rectVehicles_eq : detectVehicles (grayOf rectFrame) = [rectVehicle] := by
  unfold detectVehicles componentsOf
  rw [rectEdgeGrid_eq]
  with_unfolding_all rfl

/-! ## C4: order of the two thresholds -/

/-- C4, counterexample: the first-stage heuristic threshold (0.6) is not
lower than or equal to the final acceptance threshold (0.4), contrary to the
claim. -/
theorem threshold_order_cex : ¬ cvGateThreshold ≤ finalConfidenceThreshold := by
  norm_num [cvGateThreshold, finalConfidenceThreshold]

/-- C4, amended: the gate's first-stage heuristic threshold (0.6, applied to
the computer-vision confidence) is strictly greater than the final acceptance
threshold (0.4, applied to the analyzer confidence). -/
theorem threshold_order_amended : finalConfidenceThreshold < cvGateThreshold := by
  norm_num [cvGateThreshold, finalConfidenceThreshold]

/-! ## C2: stride subsampling -/

/-- C2: for every frame whose index is not a multiple of the stride (30),
whatever the frame contents (and hence whatever the heuristic score),
`analyze_video_frame` returns the no-detection result and never invokes the
semantic analyzer. -/
theorem stride_skip (gem : Option GeminiResult) (st : RTState) (v : String)
    (f : Img) (n : ℕ) (now : ℚ) (hn : n % frameStride ≠ 0) :
    (analyzeVideoFrame gem st v (some f) n now).result = rtNoDetectionResult ∧
    (analyzeVideoFrame gem st v (some f) n now).geminiInvoked = false := by
  simp only [analyzeVideoFrame, analyzeVideoFrameWith, if_pos hn]
  trivial

/-- C2, witness at frame number 1. -/
theorem stride_skip_witness :
    (1 % frameStride ≠ 0) ∧
    (analyzeVideoFrame none rtInitialState "cam" (some (blackImg 1 1)) 1 0).result
      = rtNoDetectionResult ∧
    (analyzeVideoFrame none rtInitialState "cam" (some (blackImg 1 1)) 1 0).geminiInvoked
      = false :=
  ⟨by decide, stride_skip none rtInitialState "cam" (blackImg 1 1) 1 0 (by decide)⟩

/-! ## C1: per-source cooldown -/

/-- C1, counterexample: during the cooldown a suppressed signal does change
the source's per-source state: the incoming frame is still appended to the
source's frame buffer (the last-emission timestamp alone is unchanged). -/
theorem cooldown_suppression_cex :
    (analyzeVideoFrameWith (some confirmedGemini)
      ⟨fun _ => [], fun _ => some 0⟩ "cam" (some (blackImg 1 1)) 30 3
      (7 / 10)).result = rtNoDetectionResult ∧
    ((analyzeVideoFrameWith (some confirmedGemini)
      ⟨fun _ => [], fun _ => some 0⟩ "cam" (some (blackImg 1 1)) 30 3
      (7 / 10)).state.frameBuffers "cam").length = 1 ∧
    (((⟨fun _ => [], fun _ => some 0⟩ : RTState)).frameBuffers "cam").length = 0 := by
  refine ⟨?_, ?_, rfl⟩
  · with_unfolding_all rfl
  · with_unfolding_all rfl

/-- C1, amended: while `now - t0` is below the 10-second cooldown, any signal
for the source yields no emission, no analyzer call, and an unchanged
last-emission map (the frame is still buffered); once `now - t0` is at least
10 seconds, the next confirming signal emits again and re-records the
timestamp; in particular confirming signals at t = 0, 3, 7, 12 for one source
emit exactly twice, at t = 0 and t = 12. -/
theorem cooldown_behavior :
    (∀ (gem : Option GeminiResult) (st : RTState) (v : String) (f : Img)
        (n : ℕ) (now t0 conf : ℚ),
      st.lastDetectionTime v = some t0 → now - t0 < cooldownSeconds →
      (analyzeVideoFrameWith gem st v (some f) n now conf).result
          = rtNoDetectionResult ∧
      (analyzeVideoFrameWith gem st v (some f) n now conf).state.lastDetectionTime
          = st.lastDetectionTime ∧
      (analyzeVideoFrameWith gem st v (some f) n now conf).geminiInvoked = false) ∧
    (∀ (g : GeminiResult) (st : RTState) (v : String) (f : Img)
        (n : ℕ) (now t0 conf : ℚ),
      st.lastDetectionTime v = some t0 → cooldownSeconds ≤ now - t0 →
      n % frameStride = 0 → cvGateThreshold < conf → g.has_crash = true →
      finalConfidenceThreshold < g.confidence →
      (analyzeVideoFrameWith (some g) st v (some f) n now conf).result.has_crash
          = true ∧
      (analyzeVideoFrameWith (some g) st v (some f) n now conf).state.lastDetectionTime v
          = some now) ∧
    cooldownScenarioEmissions = [0, 12] := by
  refine ⟨?_, ?_, by with_unfolding_all rfl⟩
  · intro gem st v f n now t0 conf h0 hcool
    simp only [analyzeVideoFrameWith, h0]
    by_cases hn : n % frameStride ≠ 0
    · simp [hn]
    · simp [hn, if_pos hcool]
  · intro g st v f n now t0 conf h0 hcool hn hconf hcrash hgc
    simp only [analyzeVideoFrameWith, h0, hn]
    rw [if_neg (by simp), if_neg (by exact not_lt.mpr hcool)]
    simp only [rtGateStage, if_pos hconf]
    rw [if_pos ⟨by simp [hcrash], hgc⟩]
    exact ⟨rfl, by simp [rtEmit]⟩

/-- C1, witness: a concrete suppressed call at t = 3 after an emission at
t = 0, and a concrete re-armed emission at t = 12. -/
theorem cooldown_behavior_witness :
    ((⟨fun _ => [], fun _ => some 0⟩ : RTState).lastDetectionTime "cam" = some 0 ∧
      (3 : ℚ) - 0 < cooldownSeconds ∧
      (analyzeVideoFrameWith (some confirmedGemini)
        ⟨fun _ => [], fun _ => some 0⟩ "cam" (some (blackImg 1 1)) 30 3
        (7 / 10)).result = rtNoDetectionResult) ∧
    (cooldownSeconds ≤ (12 : ℚ) - 0 ∧ 30 % frameStride = 0 ∧
      cvGateThreshold < (7 : ℚ) / 10 ∧
      finalConfidenceThreshold < confirmedGemini.confidence ∧
      (analyzeVideoFrameWith (some confirmedGemini)
        ⟨fun _ => [], fun _ => some 0⟩ "cam" (some (blackImg 1 1)) 30 12
        (7 / 10)).result.has_crash = true) :=
  ⟨⟨rfl, by norm_num [cooldownSeconds],
    (cooldown_behavior.1 (some confirmedGemini) ⟨fun _ => [], fun _ => some 0⟩
      "cam" (blackImg 1 1) 30 3 0 (7 / 10) rfl
      (by norm_num [cooldownSeconds])).1⟩,
   ⟨by norm_num [cooldownSeconds], by decide,
    by norm_num [cvGateThreshold], by norm_num [finalConfidenceThreshold, confirmedGemini],
    (cooldown_behavior.2.1 confirmedGemini ⟨fun _ => [], fun _ => some 0⟩
      "cam" (blackImg 1 1) 30 12 0 (7 / 10) rfl
      (by norm_num [cooldownSeconds]) (by decide)
      (by norm_num [cvGateThreshold])
      rfl (by norm_num [finalConfidenceThreshold, confirmedGemini])).1⟩⟩

/-! ## C9: per-source state isolation -/

/-- C9: processing a frame for one source id touches only that source's frame
buffer and last-emission timestamp; every other source's buffer and cooldown
state are unchanged, and two sources with overlapping confirmed incidents each
emit within their own cooldown window (shown concretely: source "a" emits at
t = 0 and source "b" still emits at t = 3). -/
theorem source_isolation :
    (∀ (gem : Option GeminiResult) (st : RTState) (v : String)
        (fo : Option Img) (n : ℕ) (now : ℚ) (u : String), u ≠ v →
      (analyzeVideoFrame gem st v fo n now).state.frameBuffers u
          = st.frameBuffers u ∧
      (analyzeVideoFrame gem st v fo n now).state.lastDetectionTime u
          = st.lastDetectionTime u) ∧
    ((analyzeVideoFrameWith (some confirmedGemini)
        (analyzeVideoFrameWith (some confirmedGemini) rtInitialState "a"
          (some (blackImg 1 1)) 0 0 (7 / 10)).state
        "b" (some (blackImg 1 1)) 0 3 (7 / 10)).result.has_crash = true) := by
  constructor
  · intro gem st v fo n now u hu
    match fo with
    | none => exact ⟨rfl, rfl⟩
    | some f =>
      simp only [analyzeVideoFrame, analyzeVideoFrameWith]
      split
      · exact ⟨by simp [hu], rfl⟩
      · split
        · split
          · exact ⟨by simp [hu], rfl⟩
          · simp only [rtGateStage]
            split
            · split
              · split
                · exact ⟨by simp [hu], by simp [hu]⟩
                · exact ⟨by simp [hu], rfl⟩
              · exact ⟨by simp [hu], rfl⟩
            · exact ⟨by simp [hu], rfl⟩
        · simp only [rtGateStage]
          split
          · split
            · split
              · exact ⟨by simp [hu], by simp [hu]⟩
              · exact ⟨by simp [hu], rfl⟩
            · exact ⟨by simp [hu], rfl⟩
          · exact ⟨by simp [hu], rfl⟩
  · with_unfolding_all rfl

/-- C9, witness: a concrete step for source "a" leaves source "b" untouched. -/
theorem source_isolation_witness :
    ("b" ≠ "a") ∧
    (analyzeVideoFrame (some confirmedGemini) rtInitialState "a"
      (some (blackImg 1 1)) 0 0).state.frameBuffers "b"
        = rtInitialState.frameBuffers "b" ∧
    (analyzeVideoFrame (some confirmedGemini) rtInitialState "a"
      (some (blackImg 1 1)) 0 0).state.lastDetectionTime "b"
        = rtInitialState.lastDetectionTime "b" :=
  ⟨by decide, source_isolation.1 (some confirmedGemini) rtInitialState "a"
    (some (blackImg 1 1)) 0 0 "b" (by decide)⟩

/-! ## C3: the fusion formula -/

/-- C3, counterexample: with two vehicles at centre distance 200 (proximity
risk 0), orientation and debris scores 0.3 and no motion, the code's
probability is 0.2 (the 0.6-gated base contributes nothing) while the claim's
ungated average formula gives 0.4. -/
theorem fusion_formula_cex :
    heuristicCrashProbability 2 200 (3 / 10) (3 / 10) 0 = 1 / 5 ∧
    claimedCrashProbability 2 200 (3 / 10) (3 / 10) 0 = 2 / 5 ∧
    ((1 : ℚ) / 5) ≠ 2 / 5 := by
  refine ⟨by with_unfolding_all rfl, by with_unfolding_all rfl, by norm_num⟩

/-- C3, amended: for frames with at least one candidate object, the crash
probability equals the claimed formula except that the equal-weight average of
proximity risk, orientation score and debris score contributes only when at
least two objects are present and the average exceeds 0.6 (otherwise the base
term is 0); the motion and object-count boosts and the clamp at 1 are as
claimed. -/
theorem fusion_formula_amended (n : ℕ) (d o deb m : ℚ) (hn : 1 ≤ n) :
    heuristicCrashProbability n d o deb m = amendedCrashProbability n d o deb m := by
  unfold heuristicCrashProbability amendedCrashProbability
    calculateCrashProbability indicatorConfidenceOf motionAnomaly
  dsimp only
  have hn0 : n ≠ 0 := by omega
  rw [if_neg hn0]
  rw [show ((n : ℚ) * (1 / 10)) = (1 / 10) * (n : ℚ) from mul_comm _ _]
  rw [show (min (m * 10) 1 * (3 / 10)) = (3 / 10) * min (m * 10) 1 from mul_comm _ _]
  by_cases h2 : n < 2
  · rw [if_pos h2, if_pos h2,
      if_neg (by simp only [not_and]; intro h; omega : ¬ (2 ≤ n ∧
        6 / 10 < ((0 : ℚ) + o + deb) / 3))]
  · rw [if_neg h2, if_neg h2]
    by_cases hg : 6 / 10 < (proximityRisk d + o + deb) / 3
    · rw [if_pos hg, if_pos ⟨by omega, hg⟩]
    · rw [if_neg hg, if_neg (by simp only [not_and]; intro _; exact hg)]

/-- C3, witness: the amended formula at one vehicle. -/
theorem fusion_formula_amended_witness :
    1 ≤ 1 ∧ heuristicCrashProbability 1 100 (1 / 2) (1 / 2) (1 / 2)
      = amendedCrashProbability 1 100 (1 / 2) (1 / 2) (1 / 2) :=
  ⟨le_refl 1, fusion_formula_amended 1 100 (1 / 2) (1 / 2) (1 / 2) (le_refl 1)⟩

/-! ## C6: monotonicity of the scorer -/

theorem indicatorConfidenceOf_nonneg (n : ℕ) (c o d : ℚ) :
    0 ≤ indicatorConfidenceOf n c o d := by
  unfold indicatorConfidenceOf
  dsimp only
  split_ifs with h1 h2
  · exact le_refl 0
  · linarith
  · exact le_refl 0

/-- C6: holding all other features fixed, the heuristic crash probability is
monotonically non-decreasing in the motion ratio, in the object count (for
non-negative motion ratios, as produced by the extractor), and in the debris
score. -/
theorem scorer_monotone :
    (∀ (n : ℕ) (d o deb m m' : ℚ), m ≤ m' →
      heuristicCrashProbability n d o deb m
        ≤ heuristicCrashProbability n d o deb m') ∧
    (∀ (n n' : ℕ) (d o deb m : ℚ), 0 ≤ m → n ≤ n' →
      heuristicCrashProbability n d o deb m
        ≤ heuristicCrashProbability n' d o deb m) ∧
    (∀ (n : ℕ) (d o deb deb' m : ℚ), deb ≤ deb' →
      heuristicCrashProbability n d o deb m
        ≤ heuristicCrashProbability n d o deb' m) := by
  refine ⟨?_, ?_, ?_⟩
  · intro n d o deb m m' hm
    unfold heuristicCrashProbability calculateCrashProbability motionAnomaly
    by_cases hn0 : n = 0
    · rw [if_pos hn0, if_pos hn0]
    · rw [if_neg hn0, if_neg hn0]
      have : min (m * 10) 1 ≤ min (m' * 10) 1 :=
        min_le_min (by linarith) (le_refl 1)
      exact min_le_min (by nlinarith) (le_refl 1)
  · intro n n' d o deb m hm hn
    unfold heuristicCrashProbability calculateCrashProbability motionAnomaly
    by_cases hn0 : n = 0
    · rw [if_pos hn0]
      by_cases hn0' : n' = 0
      · rw [if_pos hn0']
      · rw [if_neg hn0']
        have hA : (0 : ℚ) ≤ min (m * 10) 1 * (3 / 10) := by
          have : (0 : ℚ) ≤ min (m * 10) 1 := le_min (by linarith) (by norm_num)
          nlinarith
        have hB : (0 : ℚ) ≤ min ((n' : ℚ) * (1 / 10)) (3 / 10) := by
          have : (0 : ℚ) ≤ (n' : ℚ) * (1 / 10) := by positivity
          exact le_min this (by norm_num)
        have hC := indicatorConfidenceOf_nonneg n'
          (if n' < 2 then 0 else proximityRisk d) o deb
        exact le_min (by linarith) (by norm_num)
    · have hn0' : n' ≠ 0 := by omega
      rw [if_neg hn0, if_neg hn0']
      have hB : min ((n : ℚ) * (1 / 10)) (3 / 10)
          ≤ min ((n' : ℚ) * (1 / 10)) (3 / 10) := by
        have : ((n : ℚ)) ≤ (n' : ℚ) := by exact_mod_cast hn
        exact min_le_min (by nlinarith) (le_refl _)
      have hC : indicatorConfidenceOf n (if n < 2 then 0 else proximityRisk d) o deb
          ≤ indicatorConfidenceOf n' (if n' < 2 then 0 else proximityRisk d) o deb := by
        by_cases h2 : n < 2
        · unfold indicatorConfidenceOf
          dsimp only
          rw [if_pos h2]
          split_ifs with ha hb
          · linarith
          · linarith
          · linarith
        · have h2' : ¬ n' < 2 := by omega
          rw [if_neg h2, if_neg h2']
          unfold indicatorConfidenceOf
          dsimp only
          rw [if_neg h2, if_neg h2']
      exact min_le_min (by linarith) (le_refl 1)
  · intro n d o deb deb' m hdeb
    unfold heuristicCrashProbability calculateCrashProbability motionAnomaly
    by_cases hn0 : n = 0
    · rw [if_pos hn0, if_pos hn0]
    · rw [if_neg hn0, if_neg hn0]
      have hC : indicatorConfidenceOf n (if n < 2 then 0 else proximityRisk d) o deb
          ≤ indicatorConfidenceOf n (if n < 2 then 0 else proximityRisk d) o deb' := by
        unfold indicatorConfidenceOf
        dsimp only
        by_cases h2 : n < 2
        · rw [if_pos h2, if_pos h2]
        · rw [if_neg h2, if_neg h2]
          split_ifs with ha hb
          · linarith
          · linarith
          · linarith
          · exact le_refl 0
      exact min_le_min (by linarith) (le_refl 1)

/-- C6, witness at concrete feature values. -/
theorem scorer_monotone_witness :
    ((0 : ℚ) ≤ 1 ∧ heuristicCrashProbability 2 100 (1 / 2) (1 / 2) 0
        ≤ heuristicCrashProbability 2 100 (1 / 2) (1 / 2) 1) ∧
    ((0 : ℚ) ≤ 0 ∧ (1 : ℕ) ≤ 3 ∧ heuristicCrashProbability 1 100 (1 / 2) (1 / 2) 0
        ≤ heuristicCrashProbability 3 100 (1 / 2) (1 / 2) 0) ∧
    ((0 : ℚ) ≤ 1 ∧ heuristicCrashProbability 2 100 (1 / 2) 0 0
        ≤ heuristicCrashProbability 2 100 (1 / 2) 1 0) :=
  ⟨⟨by norm_num, scorer_monotone.1 2 100 (1 / 2) (1 / 2) 0 1 (by norm_num)⟩,
   ⟨le_refl 0, by norm_num,
     scorer_monotone.2.1 1 3 100 (1 / 2) (1 / 2) 0 (le_refl 0) (by norm_num)⟩,
   ⟨by norm_num, scorer_monotone.2.2 2 100 (1 / 2) 0 1 0 (by norm_num)⟩⟩

/-! ## C7: analyzer response parsing -/

theorem jGet_cons (hd : String × JVal) (tl : JObj) (k : String) :
    jGet (hd :: tl) k = if hd.1 == k then some hd.2 else jGet tl k := by
  unfold jGet
  rw [List.find?_cons]
  by_cases h : (hd.1 == k)
  · simp [h]
  · simp [h]

theorem jGet_map_set_self (o : JObj) (k : String) (v : JVal)
    (h : (o.find? (fun p => p.1 == k)).isSome) :
    jGet (o.map fun p => if p.1 == k then (k, v) else p) k = some v := by
  induction o with
  | nil => simp [List.find?] at h
  | cons hd tl ih =>
    by_cases hhd : (hd.1 == k)
    · rw [List.map_cons, if_pos hhd, jGet_cons]
      simp
    · rw [List.map_cons, if_neg hhd, jGet_cons, if_neg hhd]
      apply ih
      rw [List.find?_cons] at h
      simp only [Bool.not_eq_true] at hhd
      rwa [hhd] at h

theorem jGet_map_set_ne (o : JObj) (k k' : String) (v : JVal) (hne : k' ≠ k) :
    jGet (o.map fun p => if p.1 == k then (k, v) else p) k' = jGet o k' := by
  induction o with
  | nil => rfl
  | cons hd tl ih =>
    by_cases hhd : (hd.1 == k)
    · have hk : hd.1 = k := eq_of_beq hhd
      have h2 : ¬ ((hd.1 == k') = true) := by
        simp only [beq_iff_eq, hk]
        exact fun h => hne h.symm
      rw [List.map_cons, if_pos hhd, jGet_cons, jGet_cons, if_neg h2]
      rw [if_neg (by simpa using fun h : k = k' => hne h.symm)]
      exact ih
    · rw [List.map_cons, if_neg hhd, jGet_cons, jGet_cons]
      by_cases hk' : (hd.1 == k')
      · rw [if_pos hk', if_pos hk']
      · rw [if_neg hk', if_neg hk']
        exact ih

theorem jGet_append_single (o : JObj) (k k' : String) (v : JVal) :
    jGet (o ++ [(k, v)]) k'
      = Option.or (jGet o k') (if k' = k then some v else none) := by
  induction o with
  | nil =>
    rw [List.nil_append]
    show jGet [(k, v)] k' = _
    rw [jGet_cons]
    by_cases hk : k' = k
    · simp [hk, jGet, List.find?, Option.or]
    · rw [if_neg (by simpa using fun h : k = k' => hk h.symm), if_neg hk]
      rfl
  | cons hd tl ih =>
    rw [List.cons_append, jGet_cons, jGet_cons]
    by_cases hhd : (hd.1 == k')
    · rw [if_pos hhd, if_pos hhd]
      rfl
    · rw [if_neg hhd, if_neg hhd]
      exact ih

theorem jGet_jSet (o : JObj) (k k' : String) (v : JVal) :
    jGet (jSet o k v) k' = if k' = k then some v else jGet o k' := by
  unfold jSet
  by_cases hmem : (o.find? (fun p => p.1 == k)).isSome
  · rw [if_pos hmem]
    by_cases hk : k' = k
    · rw [if_pos hk, hk]
      exact jGet_map_set_self o k v hmem
    · rw [if_neg hk]
      exact jGet_map_set_ne o k k' v hk
  · rw [if_neg hmem, jGet_append_single]
    by_cases hk : k' = k
    · subst hk
      have hnone : jGet o k' = none := by
        unfold jGet
        rw [Option.not_isSome_iff_eq_none] at hmem
        rw [hmem]
        rfl
      simp [hnone]
    · simp [hk]

theorem jGet_fillField (o : JObj) (f k : String) :
    jGet (fillField o f) k
      = if k = f then some ((jGet o f).getD (defaultValueFor f))
        else jGet o k := by
  unfold fillField
  by_cases hp : (jGet o f).isSome
  · rw [if_pos hp]
    by_cases hk : k = f
    · subst hk
      rcases Option.isSome_iff_exists.mp hp with ⟨x, hx⟩
      simp [hx]
    · rw [if_neg hk]
  · rw [if_neg hp, jGet_jSet]
    rw [Option.not_isSome_iff_eq_none] at hp
    by_cases hk : k = f
    · simp [hk, hp]
    · simp [hk]

theorem fill_confidence (obj : JObj) :
    jGet (requiredFieldNames.foldl fillField obj) "confidence"
      = some ((jGet obj "confidence").getD (JVal.jnum 0)) := by
  simp only [requiredFieldNames, List.foldl_cons, List.foldl_nil]
  rw [jGet_fillField, if_pos rfl, jGet_fillField, if_neg (by decide),
    jGet_fillField, if_neg (by decide), jGet_fillField, if_neg (by decide),
    jGet_fillField, if_neg (by decide)]
  rfl

theorem fill_has_incident (obj : JObj) :
    jGet (requiredFieldNames.foldl fillField obj) "has_incident"
      = some ((jGet obj "has_incident").getD (JVal.jbool false)) := by
  simp only [requiredFieldNames, List.foldl_cons, List.foldl_nil]
  rw [jGet_fillField, if_neg (by decide), jGet_fillField, if_neg (by decide),
    jGet_fillField, if_neg (by decide), jGet_fillField, if_neg (by decide),
    jGet_fillField, if_pos rfl]
  rfl

theorem fill_other (obj : JObj) (k : String) (h1 : k ≠ "has_incident")
    (h2 : k ≠ "incident_type") (h3 : k ≠ "severity") (h4 : k ≠ "description")
    (h5 : k ≠ "confidence") :
    jGet (requiredFieldNames.foldl fillField obj) k = jGet obj k := by
  simp only [requiredFieldNames, List.foldl_cons, List.foldl_nil]
  rw [jGet_fillField, if_neg h5, jGet_fillField, if_neg h4,
    jGet_fillField, if_neg h3, jGet_fillField, if_neg h2,
    jGet_fillField, if_neg h1]

/-- C7, counterexample: a parsable response with `has_incident` true and no
`confidence` field parses to a judgment whose confidence is defaulted to 0 but
whose `has_incident` remains true: a missing confidence field does not force
`has_incident` to false as the claim states. -/
theorem parse_defaults_cex :
    jGet [("has_incident", JVal.jbool true)] "confidence" = none ∧
    jGet (parseResponse (some [("has_incident", JVal.jbool true)])) "confidence"
      = some (JVal.jnum 0) ∧
    jGet (parseResponse (some [("has_incident", JVal.jbool true)])) "has_incident"
      = some (JVal.jbool true) := by
  refine ⟨rfl, ?_, ?_⟩ <;> with_unfolding_all rfl

/-- C7, amended: parsing never raises — unparsable output or a confidence
value on which the float coercion fails yields the full default judgment
(`has_incident` false, confidence 0); a merely missing `confidence` field is
filled with 0.0 while other fields present in the response, such as
`has_incident`, are preserved rather than defaulted. -/
theorem parse_defaults_amended (obj : JObj) :
    (parseResponse none = defaultResponse) ∧
    (∀ v, jGet obj "confidence" = some v → pyFloat v = none →
      parseResponse (some obj) = defaultResponse) ∧
    (jGet obj "confidence" = none →
      jGet obj "vehicles_detected" = none →
      jGet obj "pedestrians_detected" = none →
      jGet obj "emergency_vehicles_detected" = none →
      jGet (parseResponse (some obj)) "confidence" = some (JVal.jnum 0) ∧
      jGet (parseResponse (some obj)) "has_incident"
        = some ((jGet obj "has_incident").getD (JVal.jbool false))) := by
  refine ⟨rfl, ?_, ?_⟩
  · intro v hv hfl
    have hc : pyFloat ((jGet (requiredFieldNames.foldl fillField obj)
        "confidence").getD (JVal.jnum 0)) = none := by
      rw [fill_confidence, hv]
      exact hfl
    simp only [parseResponse, parseResponseInner]
    rw [hc]
    rfl
  · intro h0 hv hp he
    have hc : pyFloat ((jGet (requiredFieldNames.foldl fillField obj)
        "confidence").getD (JVal.jnum 0)) = some 0 := by
      rw [fill_confidence, h0]
      rfl
    have hvd : jGet (jSet (requiredFieldNames.foldl fillField obj)
        "confidence" (JVal.jnum 0)) "vehicles_detected" = none := by
      rw [jGet_jSet, if_neg (by decide),
        fill_other obj _ (by decide) (by decide) (by decide) (by decide) (by decide)]
      exact hv
    have hpd : ∀ x, jGet (jSet (jSet (requiredFieldNames.foldl fillField obj)
        "confidence" (JVal.jnum 0)) "vehicles_detected" x)
        "pedestrians_detected" = none := by
      intro x
      rw [jGet_jSet, if_neg (by decide), jGet_jSet, if_neg (by decide),
        fill_other obj _ (by decide) (by decide) (by decide) (by decide) (by decide)]
      exact hp
    have hev : ∀ x y, jGet (jSet (jSet (jSet (requiredFieldNames.foldl fillField obj)
        "confidence" (JVal.jnum 0)) "vehicles_detected" x)
        "pedestrians_detected" y) "emergency_vehicles_detected" = none := by
      intro x y
      rw [jGet_jSet, if_neg (by decide), jGet_jSet, if_neg (by decide),
        jGet_jSet, if_neg (by decide),
        fill_other obj _ (by decide) (by decide) (by decide) (by decide) (by decide)]
      exact he
    simp only [parseResponse, parseResponseInner]
    rw [hc]
    dsimp only
    rw [hvd]
    dsimp only [Option.getD, pyInt]
    rw [hpd]
    dsimp only [Option.getD, pyInt]
    rw [hev]
    dsimp only [Option.getD, pyInt]
    constructor
    · rw [jGet_jSet, if_neg (by decide), jGet_jSet, if_neg (by decide),
        jGet_jSet, if_neg (by decide), jGet_jSet, if_pos rfl]
    · rw [jGet_jSet, if_neg (by decide), jGet_jSet, if_neg (by decide),
        jGet_jSet, if_neg (by decide), jGet_jSet, if_neg (by decide)]
      exact fill_has_incident obj

/-- C7, witness: a concrete response with only a severity field. -/
theorem parse_defaults_amended_witness :
    jGet [("severity", JVal.jstr "high")] "confidence" = none ∧
    jGet (parseResponse (some [("severity", JVal.jstr "high")])) "confidence"
      = some (JVal.jnum 0) ∧
    jGet (parseResponse (some [("severity", JVal.jstr "high")])) "has_incident"
      = some ((jGet [("severity", JVal.jstr "high")] "has_incident").getD
          (JVal.jbool false)) :=
  ⟨rfl, ((parse_defaults_amended [("severity", JVal.jstr "high")]).2.2
      rfl rfl rfl rfl).1,
    ((parse_defaults_amended [("severity", JVal.jstr "high")]).2.2
      rfl rfl rfl rfl).2⟩

/-! ## C5: thresholded classification -/

theorem analyzeMotion_anomaly_nonneg (a b : Gray) :
    0 ≤ (analyzeMotion a b).anomalyScore := by
  unfold analyzeMotion
  dsimp only
  have h : (0 : ℚ) ≤ ((absDiffAboveCount a b : ℕ) : ℚ) / ((a.h * a.w : ℕ) : ℚ) := by
    positivity
  exact le_min (by linarith) (by norm_num)

theorem analyzeMotion_anomaly_le_one (a b : Gray) :
    (analyzeMotion a b).anomalyScore ≤ 1 := by
  unfold analyzeMotion
  dsimp only
  exact min_le_right _ _

theorem indicators_cases (f : Img) (vs : List Vehicle) :
    (detectCrashIndicators f vs).confidence = 0 ∨
    (detectCrashIndicators f vs).crash_type = "collision" := by
  unfold detectCrashIndicators
  dsimp only
  split_ifs with h1 h2
  · exact Or.inl rfl
  · exact Or.inr rfl
  · exact Or.inl rfl

theorem calc_bound (n : ℕ) (a : ℚ) (h0 : 0 ≤ a) (h1 : a ≤ 1) :
    calculateCrashProbability n 0 a ≤ 3 / 5 := by
  unfold calculateCrashProbability
  split_ifs with h
  · norm_num
  · have hm : min ((n : ℚ) * (1 / 10)) (3 / 10) ≤ 3 / 10 := min_le_right _ _
    have hs : (0 : ℚ) + a * (3 / 10) + min ((n : ℚ) * (1 / 10)) (3 / 10) ≤ 3 / 5 := by
      nlinarith
    exact le_trans (min_le_left _ _) hs

theorem classification_tail (f : Img) (gray : Gray) (r : CDResult) (p : ℚ)
    (mb : Bool) (ms : ℚ) (h0 : 0 ≤ ms) (h1 : ms ≤ 1)
    (h : (let r1 : CDResult := { { cdNoDetectionResult with
            objects_detected := (detectVehicles gray).length } with
            motion_detected := mb
            anomaly_score := ms };
          let ind := detectCrashIndicators f (detectVehicles gray);
          let pr := calculateCrashProbability (detectVehicles gray).length
            ind.confidence ms;
          if crashThreshold < pr then
            some ({ r1 with
                    has_crash := true
                    confidence := pr
                    crash_type := ind.crash_type
                    description := ind.description
                    bounding_boxes := ind.bounding_boxes }, pr)
          else some (r1, pr)) = some (r, p)) :
    ((r.has_crash = true ∧ r.crash_type = "collision") ↔ crashThreshold < p) ∧
    (¬ crashThreshold < p → r.has_crash = false ∧ r.crash_type = "none") := by
  dsimp only at h
  split_ifs at h with hif
  · simp only [Option.some.injEq, Prod.mk.injEq] at h
    obtain ⟨rfl, rfl⟩ := h
    have hcol : (detectCrashIndicators f (detectVehicles gray)).crash_type
        = "collision" := by
      rcases indicators_cases f (detectVehicles gray) with hc0 | hcol
      · exfalso
        rw [hc0] at hif
        have hb := calc_bound (detectVehicles gray).length ms h0 h1
        rw [crashThreshold] at hif
        linarith
      · exact hcol
    refine ⟨⟨fun _ => hif, fun _ => ⟨rfl, hcol⟩⟩, fun hn => absurd hif hn⟩
  · simp only [Option.some.injEq, Prod.mk.injEq] at h
    obtain ⟨rfl, rfl⟩ := h
    refine ⟨⟨?_, fun hc => absurd hc hif⟩, fun _ => ⟨rfl, rfl⟩⟩
    rintro ⟨hc, -⟩
    simp [cdNoDetectionResult] at hc

/-- C5: the per-frame result classifies as "collision" (`has_crash` true,
`crash_type` "collision") exactly when the computed crash probability exceeds
the 0.7 crash threshold, and as "none" (`has_crash` false, `crash_type`
"none") otherwise. -/
theorem classification_iff (f : Img) (prev : Option Img) (r : CDResult) (p : ℚ)
    (h : detectCrashCore f prev = some (r, p)) :
    ((r.has_crash = true ∧ r.crash_type = "collision") ↔ crashThreshold < p) ∧
    (¬ crashThreshold < p → r.has_crash = false ∧ r.crash_type = "none") := by
  unfold detectCrashCore at h
  cases hcv : cvtColorBGR2GRAY f with
  | none => rw [hcv] at h; simp at h
  | some gray =>
    rw [hcv, Option.some_bind] at h
    unfold detectCrashStage at h
    by_cases hz : (detectVehicles gray).length = 0
    · rw [if_pos hz] at h
      simp only [Option.some.injEq, Prod.mk.injEq] at h
      obtain ⟨rfl, rfl⟩ := h
      refine ⟨⟨?_, ?_⟩, fun _ => ⟨rfl, rfl⟩⟩
      · rintro ⟨hc, -⟩
        simp [cdNoDetectionResult] at hc
      · intro hc
        rw [crashThreshold] at hc
        norm_num at hc
    · rw [if_neg hz] at h
      cases prev with
      | none =>
        dsimp only at h
        exact classification_tail f gray r p false 0 (le_refl 0) (by norm_num) h
      | some pp =>
        dsimp only at h
        cases hc2 : cvtColorBGR2GRAY pp with
        | none =>
          rw [hc2] at h
          simp only [Option.map_none', Option.none_bind] at h
          exact Option.noConfusion h
        | some pg =>
          rw [hc2] at h
          simp only [Option.map_some', Option.some_bind] at h
          exact classification_tail f gray r p (analyzeMotion gray pg).hasMotion
            (analyzeMotion gray pg).anomalyScore
            (analyzeMotion_anomaly_nonneg gray pg)
            (analyzeMotion_anomaly_le_one gray pg) h

/-- C5, witness: a one-pixel black frame classifies as "none" with
probability 0. -/
theorem classification_iff_witness :
    detectCrashCore (blackImg 1 1) none = some (cdNoDetectionResult, 0) ∧
    ((cdNoDetectionResult.has_crash = true ∧
        cdNoDetectionResult.crash_type = "collision") ↔ crashThreshold < 0) ∧
    (¬ crashThreshold < (0 : ℚ) → cdNoDetectionResult.has_crash = false ∧
        cdNoDetectionResult.crash_type = "none") :=
  ⟨by with_unfolding_all rfl,
    (classification_iff (blackImg 1 1) none cdNoDetectionResult 0
      (by with_unfolding_all rfl)).1,
    (classification_iff (blackImg 1 1) none cdNoDetectionResult 0
      (by with_unfolding_all rfl)).2⟩

/-! ## C8: all-black and identical frames -/

theorem gaussianBlur5_const (h w i j : ℕ) :
    (gaussianBlur5 (constGray h w)).pix i j = 0 := by
  norm_num [gaussianBlur5, constGray, pixAt, kernel1D]

theorem zeroList_getD (r : List ℕ) (hr : ∀ x ∈ r, x = 0) (j : ℕ) :
    r.getD j 0 = 0 := by
  induction r generalizing j with
  | nil => simp
  | cons a t ih =>
    cases j with
    | zero => simpa using hr a (by simp)
    | succ j => simpa using ih (fun x hx => hr x (by simp [hx])) j

theorem zeroRows_getD :
    ∀ (l : List (List ℕ)), (∀ r ∈ l, ∀ x ∈ r, x = 0) →
      ∀ i j, (l.getD i []).getD j 0 = 0 := by
  intro l
  induction l with
  | nil => intro _ i j; simp
  | cons r t ih =>
    intro hl i j
    cases i with
    | zero => simpa using zeroList_getD r (hl r (by simp)) j
    | succ i => simpa using ih (fun s hs x hx => hl s (by simp [hs]) x hx) i j

theorem blurGrid_const_zero (h w : ℕ) :
    ∀ r ∈ blurGridOf (constGray h w), ∀ x ∈ r, x = 0 := by
  intro r hr x hx
  unfold blurGridOf at hr
  rcases List.mem_map.mp hr with ⟨i, -, rfl⟩
  rcases List.mem_map.mp hx with ⟨j, -, rfl⟩
  exact gaussianBlur5_const h w i j

theorem blurredAt_const (h w : ℕ) (i j : ℤ) :
    blurredAt (constGray h w) (blurGridOf (constGray h w)) i j = 0 := by
  unfold blurredAt gridGetNat
  exact zeroRows_getD _ (blurGrid_const_zero h w) _ _

theorem gradMagAt_const (h w i j : ℕ) :
    gradMagAt (constGray h w) (blurGridOf (constGray h w)) i j = 0 := by
  unfold gradMagAt
  simp only [blurredAt_const]
  norm_num

theorem edgeGrid_const_false (h w : ℕ) :
    ∀ row ∈ edgeGridOf (constGray h w), ∀ b ∈ row, b = false := by
  intro row hrow b hb
  unfold edgeGridOf edgeGridFrom at hrow
  rcases List.mem_map.mp hrow with ⟨i, -, rfl⟩
  rcases List.mem_map.mp hb with ⟨j, -, rfl⟩
  rw [gradMagAt_const h w i j]
  decide

theorem rowRunsAux_false (row : List Bool) (hr : ∀ b ∈ row, b = false) :
    ∀ j, rowRunsAux row j none = [] := by
  induction row with
  | nil => intro j; rfl
  | cons b t ih =>
    intro j
    have hb : b = false := hr b (by simp)
    subst hb
    unfold rowRunsAux
    simp only [Bool.false_eq_true, if_false]
    exact ih (fun x hx => hr x (by simp [hx])) (j + 1)

theorem allRuns_const (h w : ℕ) :
    allRuns (edgeGridOf (constGray h w)) = [] := by
  unfold allRuns
  rw [List.flatMap_eq_nil_iff]
  intro ir hir
  have hmem : ir.2 ∈ edgeGridOf (constGray h w) := by
    rcases ir with ⟨i, row⟩
    have h1 := List.mk_mem_enum_iff_getElem?.mp hir
    exact List.getElem?_mem h1
  rw [show rowRuns ir.2 = [] from
    rowRunsAux_false ir.2 (edgeGrid_const_false h w ir.2 hmem) 0]
  rfl

theorem detectVehicles_const (h w : ℕ) :
    detectVehicles (constGray h w) = [] := by
  unfold detectVehicles componentsOf
  rw [allRuns_const]
  rfl

theorem cvtColor_black (h w : ℕ) (hh : 0 < h) (hw : 0 < w) :
    cvtColorBGR2GRAY (blackImg h w) = some (constGray h w) := by
  unfold cvtColorBGR2GRAY
  rw [if_neg (by simp only [blackImg]; omega)]
  congr 1
  unfold blackImg constGray
  simp only [Gray.mk.injEq]
  refine ⟨trivial, trivial, ?_⟩
  funext i j
  norm_num [grayVal]

theorem analyzeMotion_self (g : Gray) : analyzeMotion g g = ⟨false, 0, 0⟩ := by
  have habs : absDiffAboveCount g g = 0 := by
    unfold absDiffAboveCount
    rw [List.countP_eq_zero]
    intro a ha
    simp
  unfold analyzeMotion
  dsimp only
  rw [habs]
  simp only [MotionData.mk.injEq]
  norm_num

/-- C8, counterexample: a static scene (identical consecutive frames) whose
single vehicle-shaped contour yields crash probability 0.1, not 0, even though
its motion ratio is 0. -/
theorem static_scene_cex :
    frameCrashProbability rectFrame (some rectFrame) = some (1 / 10) ∧
    (analyzeMotion (grayOf rectFrame) (grayOf rectFrame)).motionRatio = 0 := by
  constructor
  · unfold frameCrashProbability detectCrashCore
    rw [show cvtColorBGR2GRAY rectFrame = some (grayOf rectFrame) from rfl,
      Option.some_bind, rectVehicles_eq]
    unfold detectCrashStage
    dsimp only
    rw [if_neg (by simp)]
    rw [show cvtColorBGR2GRAY rectFrame = some (grayOf rectFrame) from rfl]
    simp only [Option.map_some', Option.some_bind]
    rw [analyzeMotion_self]
    with_unfolding_all rfl
  · rw [analyzeMotion_self]

/-- C8, amended: an all-black frame yields no detected objects and crash
probability 0 (with or without a previous frame), and identical consecutive
frames always yield motion ratio 0 and motion anomaly 0; the probability for
identical frames need not be 0 when the static frame contains vehicle-shaped
contours. -/
theorem allblack_zero :
    (∀ h w : ℕ, 0 < h → 0 < w →
      detectCrashCore (blackImg h w) (some (blackImg h w))
          = some (cdNoDetectionResult, 0) ∧
      detectCrashCore (blackImg h w) none = some (cdNoDetectionResult, 0)) ∧
    (∀ g : Gray, (analyzeMotion g g).motionRatio = 0 ∧
      (analyzeMotion g g).anomalyScore = 0) := by
  constructor
  · intro h w hh hw
    constructor <;>
    · unfold detectCrashCore
      rw [cvtColor_black h w hh hw, Option.some_bind]
      unfold detectCrashStage
      rw [detectVehicles_const]
      dsimp only
      rw [if_pos (show ([] : List Vehicle).length = 0 from rfl)]
      rfl
  · intro g
    rw [analyzeMotion_self]
    exact ⟨rfl, rfl⟩

/-- C8, witness: the all-black case at one pixel, and identical frames at a
2 by 2 grid. -/
theorem allblack_zero_witness :
    ((0 : ℕ) < 1 ∧
      detectCrashCore (blackImg 1 1) (some (blackImg 1 1))
        = some (cdNoDetectionResult, 0)) ∧
    (analyzeMotion (constGray 2 2) (constGray 2 2)).motionRatio = 0 :=
  ⟨⟨Nat.one_pos, (allblack_zero.1 1 1 Nat.one_pos Nat.one_pos).1⟩,
   (allblack_zero.2 (constGray 2 2)).1⟩

/-! ## C10: the malformed-frame guard -/

/-- C10, counterexample: a present zero-sized frame is not guarded — the
grayscale conversion step errors (`none`) instead of producing the default
all-zero result. -/
theorem zero_sized_frame_cex :
    detectCrashInFrame (some (blackImg 0 0)) none = none ∧
    (none : Option CDResult) ≠ some cdNoDetectionResult := by
  refine ⟨rfl, by simp⟩

/-- C10, amended: the extractor returns the default no-detection result for a
missing (`None`) frame and never raises on frames with positive dimensions,
but a zero-sized present frame is not guarded: the conversion step raises. -/
theorem frame_guard_amended :
    (∀ prev, detectCrashInFrame none prev = some cdNoDetectionResult) ∧
    (∀ (f : Img) (prev : Option Img), 0 < f.h → 0 < f.w →
      (prev = none ∨ ∃ p, prev = some p ∧ 0 < p.h ∧ 0 < p.w) →
      (detectCrashInFrame (some f) prev).isSome = true) ∧
    (∀ (f : Img) (prev : Option Img), f.h = 0 ∨ f.w = 0 →
      detectCrashInFrame (some f) prev = none) := by
  refine ⟨fun prev => rfl, ?_, ?_⟩
  · intro f prev hh hw hprev
    unfold detectCrashInFrame detectCrashCore
    dsimp only
    have hcv : ∃ g, cvtColorBGR2GRAY f = some g := by
      unfold cvtColorBGR2GRAY
      rw [if_neg (by omega)]
      exact ⟨_, rfl⟩
    rcases hcv with ⟨g, hg⟩
    rw [hg, Option.some_bind]
    unfold detectCrashStage
    dsimp only
    split_ifs with hz
    · rfl
    · rcases hprev with rfl | ⟨p, rfl, hp1, hp2⟩
      · dsimp only
        rw [Option.some_bind]
        dsimp only
        split_ifs <;> rfl
      · have hcv2 : ∃ pg, cvtColorBGR2GRAY p = some pg := by
          unfold cvtColorBGR2GRAY
          rw [if_neg (by omega)]
          exact ⟨_, rfl⟩
        rcases hcv2 with ⟨pg, hpg⟩
        dsimp only
        rw [hpg]
        simp only [Option.map_some', Option.some_bind]
        split_ifs <;> rfl
  · intro f prev hz
    unfold detectCrashInFrame detectCrashCore cvtColorBGR2GRAY
    dsimp only
    rw [if_pos hz]
    rfl

/-- C10, witness: the `None` frame, a well-formed one-pixel frame, and a
zero-height frame. -/
theorem frame_guard_amended_witness :
    detectCrashInFrame none none = some cdNoDetectionResult ∧
    ((0 : ℕ) < 1 ∧
      (detectCrashInFrame (some (blackImg 1 1)) none).isSome = true) ∧
    ((blackImg 0 2).h = 0 ∨ (blackImg 0 2).w = 0) ∧
    detectCrashInFrame (some (blackImg 0 2)) none = none :=
  ⟨frame_guard_amended.1 none,
   ⟨Nat.one_pos, frame_guard_amended.2.1 (blackImg 1 1) none Nat.one_pos
      Nat.one_pos (Or.inl rfl)⟩,
   Or.inl rfl,
   frame_guard_amended.2.2 (blackImg 0 2) none (Or.inl rfl)⟩
